import Mathlib

/-!
# Stemma sensor drivers: VEML7700 lux sensor and seesaw soil sensor

A shallow embedding of `luxsensor/module.go` and `soilsensor/module.go`.

* Go `uint8` / `uint16` / `uint32` values are natural numbers; every conversion or
  shift that can overflow carries an explicit `% 2 ^ w`.
* Go `int` configuration fields are integers.
* `float64` values are rationals: every constant of the driver is a decimal
  literal and the arithmetic of `getResolution` / `computeLux` is read as exact
  arithmetic on those literals.
* `float32(uint32)` in the soil driver is modelled with its rounding
  (24-bit significand, round to nearest, ties to even).
* The I2C bus is an oracle answering each request from the trace of the events
  issued so far; driver operations thread that trace.
* Logging calls have no effect on results and are left out.
-/

namespace Stemma

/-! ## The I2C bus collaborator -/

/-- Requests a driver issues on the bus, in the order they are issued. -/
inductive Event where
  | openHandle (addr : Nat)
  | write (data : List Nat)
  | writeBlockData (register : Nat) (data : List Nat)
  | readBlockData (register : Nat) (numBytes : Nat)
  | sleep (ms : Nat)
  | close
  deriving DecidableEq, Repr

/-- Error values. `transport` is whatever the bus reports, `wrap msg cause` is
`fmt.Errorf` with a `%w` verb (the message is the Go format string), `invalid msg`
is `fmt.Errorf` without a cause. `indexOutOfRange` stands for the run-time failure of
indexing a slice past its length, which ends the call without a value. -/
inductive Err where
  | transport (code : Nat)
  | wrap (msg : String) (cause : Err)
  | invalid (msg : String)
  | indexOutOfRange
  deriving DecidableEq, Repr

/-- Go `buses.I2C` together with the handles it opens. Every answer may depend on
the events issued before the request. -/
structure I2C where
  openHandle : List Event → Nat → Option Err
  write : List Event → List Nat → Option Err
  writeBlockData : List Event → Nat → List Nat → Option Err
  readBlockData : List Event → Nat → Nat → Except Err (List Nat)

/-- Values stored in a readings map (`map[string]interface{}`). -/
inductive Value where
  | uint16 (n : Nat)
  | int32 (i : Int)
  | float32 (q : ℚ)
  | float64 (q : ℚ)
  deriving DecidableEq, Repr

/-- Go `byte(x)` for an `int`. -/
def byteOfInt (x : Int) : Nat := (x % 256).toNat

/-- Root cause of an error chain (`errors.Unwrap` repeated). -/
def Err.cause : Err → Err
  | Err.wrap _ c => c.cause
  | e => e

/-! ## Lux sensor: enumerated settings -/

namespace LuxSensor

/-- Go `type Persistence uint8`. -/
abbrev Persistence := Nat

/-- Go `type Gain uint8`. -/
abbrev Gain := Nat

/-- Go `type IntegrationTime uint8`. -/
abbrev IntegrationTime := Nat

def defaultI2CAddress : Int := 0x10

def ALS_CONFIG : Nat := 0x00
def ALS_POWER_SAVE : Nat := 0x03
def ALS_DATA : Nat := 0x04

def MAX_RES : ℚ := 0.0042
def GAIN_MAX : ℚ := 2.0
def IT_MAX : ℚ := 800.0

def PERS_1 : Persistence := 0x00
def PERS_2 : Persistence := 0x01
def PERS_4 : Persistence := 0x02
def PERS_8 : Persistence := 0x03

def PersistenceFromValue (v : Int) : Persistence :=
  if v = 1 then PERS_1
  else if v = 2 then PERS_2
  else if v = 4 then PERS_4
  else if v = 8 then PERS_8
  else 0xFF

def GAIN_1 : Gain := 0x00
def GAIN_2 : Gain := 0x01
def GAIN_1_8 : Gain := 0x02
def GAIN_1_4 : Gain := 0x03

/-- Go `func (g Gain) Factor() float64`. -/
def Factor (g : Gain) : ℚ :=
  if g = GAIN_1 then 1.0
  else if g = GAIN_2 then 2.0
  else if g = GAIN_1_4 then 0.25
  else if g = GAIN_1_8 then 0.125
  else -1

def GainFromFactor (f : String) : Gain :=
  if f = "1" then GAIN_1
  else if f = "2" then GAIN_2
  else if f = "1/4" then GAIN_1_4
  else if f = "1/8" then GAIN_1_8
  else 0xFF

def IT_100MS : IntegrationTime := 0x00
def IT_200MS : IntegrationTime := 0x01
def IT_400MS : IntegrationTime := 0x02
def IT_800MS : IntegrationTime := 0x03
def IT_50MS : IntegrationTime := 0x08
def IT_25MS : IntegrationTime := 0x0C

/-- Go `func (it IntegrationTime) TimeMs() int`. -/
def TimeMs (it : IntegrationTime) : Int :=
  if it = IT_100MS then 100
  else if it = IT_200MS then 200
  else if it = IT_400MS then 400
  else if it = IT_800MS then 800
  else if it = IT_50MS then 50
  else if it = IT_25MS then 25
  else -1

def IntegrationTimeFromMs (ms : Int) : IntegrationTime :=
  if ms = 100 then IT_100MS
  else if ms = 200 then IT_200MS
  else if ms = 400 then IT_400MS
  else if ms = 800 then IT_800MS
  else if ms = 50 then IT_50MS
  else if ms = 25 then IT_25MS
  else 0xFF

/-! ## Lux sensor: configuration word -/

/-- Go `packConfig`: the 16-bit VEML7700 configuration word. Each field is masked
in `uint8`, widened to `uint16` and shifted inside `uint16`. -/
def packConfig (enable interrupt : Bool) (persistence : Persistence)
    (integration : IntegrationTime) (gain : Gain) : Nat :=
  let conf : Nat := 0
  let conf := conf ||| (((gain &&& 0x3) <<< 11) % 2 ^ 16)
  let conf := conf ||| (((integration &&& 0xF) <<< 6) % 2 ^ 16)
  let conf := conf ||| (((persistence &&& 0x3) <<< 4) % 2 ^ 16)
  let conf := if interrupt then conf ||| (1 <<< 1) else conf
  let conf := if enable then conf ||| 1 else conf
  conf

/-! ## Lux sensor: driver -/

structure Config where
  I2CBus : String
  I2cAddr : Int
  Gain : String
  IntegrationTime : Int
  Persistence : Int

structure luxSensor where
  cfg : Config
  addr : Nat
  bus : I2C
  gain : Gain
  integration : IntegrationTime
  persistence : Persistence

/-- Go `(*luxSensor).Initialize`. The deferred `handle.Close()` is the `close` event
appended on each path after a successful `OpenHandle`. -/
def Initialize (s : luxSensor) (tr : List Event) : Option Err × List Event :=
  let tr1 := tr ++ [Event.openHandle s.addr]
  match s.bus.openHandle tr s.addr with
  | some err => (some (Err.wrap "failed to open I2C handle at address 0x%X: %w" err), tr1)
  | none =>
    let conf := packConfig true false s.persistence s.integration s.gain
    let data := [(conf >>> 8) % 256, conf % 256]
    let tr2 := tr1 ++ [Event.writeBlockData ALS_CONFIG data]
    match s.bus.writeBlockData tr1 ALS_CONFIG data with
    | some err =>
      (some (Err.wrap "failed to write config to VEML7700: %w" err), tr2 ++ [Event.close])
    | none =>
      let tr3 := tr2 ++ [Event.writeBlockData ALS_POWER_SAVE [0x00, 0x00]]
      match s.bus.writeBlockData tr2 ALS_POWER_SAVE [0x00, 0x00] with
      | some err =>
        (some (Err.wrap "failed to write power save to VEML7700: %w" err), tr3 ++ [Event.close])
      | none => (none, tr3 ++ [Event.close])

/-- Go `NewLuxSensor`. `NewI2cBus` is `buses.NewI2cBus`. The three `if` blocks
declare their own `gain`, `integration` and `persistence` with `:=`, so the
variables of the same name declared before the blocks keep their values. -/
def NewLuxSensor (NewI2cBus : String → Except Err I2C) (conf : Config) (tr : List Event) :
    Except Err luxSensor × List Event :=
  match NewI2cBus conf.I2CBus with
  | Except.error err => (Except.error (Err.wrap "failed to open i2c bus %s: %w" err), tr)
  | Except.ok i2cbus =>
    let addr := if conf.I2cAddr = 0 then defaultI2CAddress else conf.I2cAddr
    let gain := GAIN_1_4
    match (if conf.Gain ≠ "" then
            (let gain := GainFromFactor conf.Gain
             if gain = 0xFF then
               some (Err.invalid "Invalid gain value: %s. Valid values are 1, 2, 1/4, 1/8")
             else none)
           else none) with
    | some e => (Except.error e, tr)
    | none =>
      let integration := IT_100MS
      match (if conf.IntegrationTime ≠ 0 then
              (let integration := IntegrationTimeFromMs conf.IntegrationTime
               if integration = 0xFF then
                 some (Err.invalid
                   "Invalid integration time value: %d. Valid values are 100, 200, 400, 800, 50, 25")
               else none)
             else none) with
      | some e => (Except.error e, tr)
      | none =>
        let persistence := PERS_1
        match (if conf.Persistence ≠ 0 then
                (let persistence := PersistenceFromValue conf.Persistence
                 if persistence = 0xFF then
                   some (Err.invalid "Invalid persistence value: %d. Valid values are 1, 2, 4, 8")
                 else none)
               else none) with
        | some e => (Except.error e, tr)
        | none =>
          let s : luxSensor :=
            ⟨conf, byteOfInt addr, i2cbus, gain, integration, persistence⟩
          let r := Initialize s tr
          match r.1 with
          | some err => (Except.error err, r.2)
          | none => (Except.ok s, r.2)

/-- Go `(*luxSensor).getResolution`. -/
def getResolution (s : luxSensor) : ℚ :=
  let it_time := TimeMs s.integration
  let gain_factor := Factor s.gain
  MAX_RES * (IT_MAX / (it_time : ℚ)) * (GAIN_MAX / gain_factor)

/-- Go `(*luxSensor).computeLux`; `math.Pow(lux, n)` is `lux ^ n`. -/
def computeLux (s : luxSensor) (als : Nat) : ℚ :=
  let resolution := getResolution s
  let lux := resolution * (als : ℚ)
  if s.gain = GAIN_1_4 ∨ s.gain = GAIN_1_8 ∨ lux > 1000 then
    let correctedLux := 6.0135e-13 * lux ^ 4 +
      -9.3924e-9 * lux ^ 3 +
      8.1488e-5 * lux ^ 2 +
      1.0023 * lux
    correctedLux
  else lux

/-- Go `(*luxSensor).readALS`. -/
def readALS (s : luxSensor) (tr : List Event) : Except Err Nat × List Event :=
  let tr1 := tr ++ [Event.openHandle s.addr]
  match s.bus.openHandle tr s.addr with
  | some err => (Except.error err, tr1)
  | none =>
    let tr2 := tr1 ++ [Event.readBlockData ALS_DATA 2]
    match s.bus.readBlockData tr1 ALS_DATA 2 with
    | Except.error err =>
      (Except.error (Err.wrap "failed to read from stemma while reading ALS data: %w" err),
        tr2 ++ [Event.close])
    | Except.ok data =>
      match data with
      | d0 :: d1 :: _ => (Except.ok (((d1 <<< 8) % 2 ^ 16) ||| d0), tr2 ++ [Event.close])
      | _ => (Except.error Err.indexOutOfRange, tr2 ++ [Event.close])

/-- Go `(*luxSensor).Readings`. -/
def Readings (s : luxSensor) (tr : List Event) :
    Except Err (List (String × Value)) × List Event :=
  let r := readALS s tr
  match r.1 with
  | Except.error err => (Except.error err, r.2)
  | Except.ok als =>
    let lux := computeLux s als
    (Except.ok [("als", Value.uint16 als), ("lux", Value.float64 lux)], r.2)

end LuxSensor

/-! ## Soil sensor -/

namespace SoilSensor

def defaultI2CAddress : Int := 0x36

structure Config where
  I2CBus : String
  I2cAddr : Int

structure stemmaSoilSensorStemmaSoilSensor where
  cfg : Config
  addr : Nat
  bus : I2C

/-- Go `NewStemmaSoilSensor`. -/
def NewStemmaSoilSensor (NewI2cBus : String → Except Err I2C) (conf : Config) :
    Except Err stemmaSoilSensorStemmaSoilSensor :=
  match NewI2cBus conf.I2CBus with
  | Except.error err => Except.error (Err.wrap "failed to open i2c bus %s: %w" err)
  | Except.ok i2cbus =>
    let addr := if conf.I2cAddr = 0 then defaultI2CAddress else conf.I2cAddr
    Except.ok ⟨conf, byteOfInt addr, i2cbus⟩

/-- Go `float32(x)` for a `uint32` `x` (so `x < 2 ^ 32`), as the integer the result
stands for: `x` itself when it fits the 24-bit significand, otherwise `x` rounded to the
nearest multiple of `2 ^ e`, where `e` is the number of bits of `x` beyond 24, ties
going to the even multiple. -/
def float32OfUint32 (x : Nat) : Nat :=
  if x < 2 ^ 24 then x
  else
    let e := if x < 2 ^ 25 then 1 else if x < 2 ^ 26 then 2 else if x < 2 ^ 27 then 3
      else if x < 2 ^ 28 then 4 else if x < 2 ^ 29 then 5 else if x < 2 ^ 30 then 6
      else if x < 2 ^ 31 then 7 else 8
    let q := x / 2 ^ e
    let r := x % 2 ^ e
    let half := 2 ^ (e - 1)
    let q := if half < r ∨ (r = half ∧ q % 2 = 1) then q + 1 else q
    q * 2 ^ e

/-- The raw 32-bit temperature register assembled from the first four payload bytes. -/
def temperatureRaw (d0 d1 d2 d3 : Nat) : Nat :=
  ((d0 <<< 24) % 2 ^ 32) ||| ((d1 <<< 16) % 2 ^ 32) ||| ((d2 <<< 8) % 2 ^ 32) ||| d3

/-- Go `(*stemmaSoilSensorStemmaSoilSensor).GetTemperature`. The constant
`float32(1.0/(1<<16))` is `2 ^ (-16)`, and a `float32` product with it is exact for
every value that `float32OfUint32` can produce. -/
def GetTemperature (s : stemmaSoilSensorStemmaSoilSensor) (tr : List Event) :
    Except Err ℚ × List Event :=
  let tr1 := tr ++ [Event.openHandle s.addr]
  match s.bus.openHandle tr s.addr with
  | some err => (Except.error err, tr1)
  | none =>
    let tr2 := tr1 ++ [Event.write [0x00, 0x04]]
    match s.bus.write tr1 [0x00, 0x04] with
    | some err =>
      (Except.error (Err.wrap "failed to write to stemma while reading temperature: %w" err),
        tr2 ++ [Event.close])
    | none =>
      let tr3 := tr2 ++ [Event.sleep 5]
      let tr4 := tr3 ++ [Event.readBlockData 0x00 4]
      match s.bus.readBlockData tr3 0x00 4 with
      | Except.error err =>
        (Except.error (Err.wrap "failed to read from stemma while reading temperature: %w" err),
          tr4 ++ [Event.close])
      | Except.ok data =>
        match data with
        | d0 :: d1 :: d2 :: d3 :: _ =>
          let value :=
            (float32OfUint32 (temperatureRaw d0 d1 d2 d3) : ℚ) * ((1.0 : ℚ) / ((1 <<< 16 : Nat) : ℚ))
          (Except.ok value, tr4 ++ [Event.close])
        | _ => (Except.error Err.indexOutOfRange, tr4 ++ [Event.close])

/-- Go `int32(x)` for a `uint32` `x`. -/
def int32OfUint32 (x : Nat) : Int :=
  if x % 2 ^ 32 < 2 ^ 31 then ((x % 2 ^ 32 : Nat) : Int) else ((x % 2 ^ 32 : Nat) : Int) - 2 ^ 32

/-- Go `(*stemmaSoilSensorStemmaSoilSensor).GetMoisture`. -/
def GetMoisture (s : stemmaSoilSensorStemmaSoilSensor) (tr : List Event) :
    Except Err Int × List Event :=
  let tr1 := tr ++ [Event.openHandle s.addr]
  match s.bus.openHandle tr s.addr with
  | some err => (Except.error err, tr1)
  | none =>
    let tr2 := tr1 ++ [Event.write [0x0F, 0x10]]
    match s.bus.write tr1 [0x0F, 0x10] with
    | some err =>
      (Except.error (Err.wrap "failed to write to stemma while reading temperature: %w" err),
        tr2 ++ [Event.close])
    | none =>
      let tr3 := tr2 ++ [Event.sleep 5]
      let tr4 := tr3 ++ [Event.readBlockData 0x0F 2]
      match s.bus.readBlockData tr3 0x0F 2 with
      | Except.error err =>
        (Except.error (Err.wrap "failed to read from stemma while reading temperature: %w" err),
          tr4 ++ [Event.close])
      | Except.ok data =>
        match data with
        | d0 :: d1 :: _ =>
          (Except.ok (int32OfUint32 (((d0 <<< 8) % 2 ^ 32) ||| d1)), tr4 ++ [Event.close])
        | _ => (Except.error Err.indexOutOfRange, tr4 ++ [Event.close])

/-- Go `(*stemmaSoilSensorStemmaSoilSensor).Readings`. -/
def Readings (s : stemmaSoilSensorStemmaSoilSensor) (tr : List Event) :
    Except Err (List (String × Value)) × List Event :=
  let rt := GetTemperature s tr
  match rt.1 with
  | Except.error err => (Except.error err, rt.2)
  | Except.ok temperature =>
    let rm := GetMoisture s rt.2
    match rm.1 with
    | Except.error err => (Except.error err, rm.2)
    | Except.ok moisture =>
      (Except.ok [("temperature_c", Value.float32 temperature), ("moisture", Value.int32 moisture)],
        rm.2)

end SoilSensor

/-! ## Sample buses -/

/-- A bus on which every request succeeds and every read returns `payload`. -/
def steadyBus (payload : List Nat) : I2C :=
  ⟨fun _ _ => none, fun _ _ => none, fun _ _ _ => none, fun _ _ _ => Except.ok payload⟩

/-- A `buses.NewI2cBus` that always hands out `steadyBus payload`. -/
def steadyNewI2cBus (payload : List Nat) : String → Except Err I2C :=
  fun _ => Except.ok (steadyBus payload)

/-- A bus whose handle cannot be opened. -/
def busFailingOpen (e : Err) : I2C :=
  ⟨fun _ _ => some e, fun _ _ => none, fun _ _ _ => none, fun _ _ _ => Except.ok []⟩

/-- A bus that rejects the command `cmd` sent with `Write` and accepts everything
else; reads return `payload`. -/
def busFailingCommand (cmd : List Nat) (e : Err) (payload : List Nat) : I2C :=
  ⟨fun _ _ => none, fun _ data => if data = cmd then some e else none, fun _ _ _ => none,
    fun _ _ _ => Except.ok payload⟩

/-- A bus that rejects block writes to register `reg` and accepts everything else. -/
def busFailingWriteAt (reg : Nat) (e : Err) : I2C :=
  ⟨fun _ _ => none, fun _ _ => none, fun _ r _ => if r = reg then some e else none,
    fun _ _ _ => Except.ok []⟩

/-- A bus whose block reads of register `reg` fail; other reads return `payload`. -/
def busFailingReadAt (reg : Nat) (e : Err) (payload : List Nat) : I2C :=
  ⟨fun _ _ => none, fun _ _ => none, fun _ _ _ => none,
    fun _ r _ => if r = reg then Except.error e else Except.ok payload⟩

/-- A lux sensor at the default address on a steady bus, with the given settings. -/
def sampleLuxSensor (gain : LuxSensor.Gain) (integration : LuxSensor.IntegrationTime)
    (persistence : LuxSensor.Persistence) : LuxSensor.luxSensor :=
  ⟨⟨"1", 0, "", 0, 0⟩, 0x10, steadyBus [], gain, integration, persistence⟩

/-- A soil sensor at the default address on a steady bus answering `payload`. -/
def sampleSoilSensor (payload : List Nat) : SoilSensor.stemmaSoilSensorStemmaSoilSensor :=
  ⟨⟨"1", 0⟩, 0x36, steadyBus payload⟩


/-! ## Theorems: configuration word -/

namespace LuxSensor

/-- Every masked field value keeps the word inside 16 bits and its reserved bits
15-13, 10 and 3-2 clear. -/
theorem packConfig_masked_reserved (enable interrupt : Bool) (p i g : Nat)
    (hp : p < 4) (hi : i < 16) (hg : g < 4) :
    (((((0 ||| ((g <<< 11) % 2 ^ 16)) ||| ((i <<< 6) % 2 ^ 16)) ||| ((p <<< 4) % 2 ^ 16))
      ||| (if interrupt then 2 else 0)) ||| (if enable then 1 else 0)) &&& 0xE40C = 0
    ∧ (((((0 ||| ((g <<< 11) % 2 ^ 16)) ||| ((i <<< 6) % 2 ^ 16)) ||| ((p <<< 4) % 2 ^ 16))
      ||| (if interrupt then 2 else 0)) ||| (if enable then 1 else 0)) < 2 ^ 16 := by
  interval_cases p <;> interval_cases i <;> interval_cases g <;>
    cases enable <;> cases interrupt <;> decide

/-- C1: for all flags and all valid persistence (0..3), integration (0, 1, 2, 3, 8, 12)
and gain (0..3) codes, `packConfig` is the word
`(gain << 11) | (integration << 6) | (persistence << 4) | (interrupt ? 2 : 0) | (enable ? 1 : 0)`,
it fits 16 bits, its bits 12-11, 9-6, 5-4, 1 and 0 read back the gain, integration,
persistence, interrupt and enable arguments, and
`packConfig(true, false, PERS_1, IT_100MS, GAIN_1_4) = 0x1801`. -/
theorem packConfig_layout (enable interrupt : Bool) (persistence integration gain : Nat)
    (hp : persistence ≤ 3) (hi : integration ∈ [0x0, 0x1, 0x2, 0x3, 0x8, 0xC])
    (hg : gain ≤ 3) :
    packConfig enable interrupt persistence integration gain
        = ((((gain <<< 11) ||| (integration <<< 6)) ||| (persistence <<< 4))
            ||| (if interrupt then 2 else 0)) ||| (if enable then 1 else 0)
      ∧ packConfig enable interrupt persistence integration gain < 2 ^ 16
      ∧ (packConfig enable interrupt persistence integration gain >>> 11) &&& 0x3 = gain
      ∧ (packConfig enable interrupt persistence integration gain >>> 6) &&& 0xF = integration
      ∧ (packConfig enable interrupt persistence integration gain >>> 4) &&& 0x3 = persistence
      ∧ (packConfig enable interrupt persistence integration gain >>> 1) &&& 0x1
          = (if interrupt then 1 else 0)
      ∧ packConfig enable interrupt persistence integration gain &&& 0x1
          = (if enable then 1 else 0)
      ∧ packConfig true false PERS_1 IT_100MS GAIN_1_4 = 0x1801 := by
  simp only [List.mem_cons, List.mem_singleton, List.not_mem_nil, or_false] at hi
  interval_cases persistence <;> interval_cases gain <;>
    rcases hi with rfl | rfl | rfl | rfl | rfl | rfl <;>
    cases enable <;> cases interrupt <;> decide

theorem packConfig_layout_witness :
    packConfig true false 0 0 3
        = ((((3 <<< 11) ||| (0 <<< 6)) ||| (0 <<< 4))
            ||| (if false = true then 2 else 0)) ||| (if true = true then 1 else 0)
      ∧ packConfig true false PERS_1 IT_100MS GAIN_1_4 = 0x1801 :=
  ⟨(packConfig_layout true false 0 0 3 (by decide) (by decide) (by decide)).1,
   (packConfig_layout true false 0 0 3 (by decide) (by decide) (by decide)).2.2.2.2.2.2.2⟩

/-- C2: for all flags and all persistence, integration and gain arguments, valid or
not (every 8-bit value, the sentinel 0xFF included), the reserved bits 15-13, 10 and
3-2 of the word built by `packConfig` are zero, `packConfig(...) & 0xE40C = 0`, and the
word fits 16 bits. -/
theorem packConfig_reserved_zero (enable interrupt : Bool)
    (persistence integration gain : Nat) :
    packConfig enable interrupt persistence integration gain &&& 0xE40C = 0
      ∧ packConfig enable interrupt persistence integration gain < 2 ^ 16 := by
  have h := packConfig_masked_reserved enable interrupt (persistence &&& 0x3)
    (integration &&& 0xF) (gain &&& 0x3)
    (Nat.and_lt_two_pow persistence (by decide : 3 < 2 ^ 2))
    (Nat.and_lt_two_pow integration (by decide : 15 < 2 ^ 4))
    (Nat.and_lt_two_pow gain (by decide : 3 < 2 ^ 2))
  unfold packConfig
  cases enable <;> cases interrupt <;> simpa using h

end LuxSensor

/-! ## Theorems: setting codecs -/

namespace LuxSensor

theorem GainFromFactor_eq_sentinel_iff (f : String) :
    GainFromFactor f = 0xFF ↔ f ∉ ["1", "2", "1/4", "1/8"] := by
  unfold GainFromFactor GAIN_1 GAIN_2 GAIN_1_4 GAIN_1_8
  split_ifs <;> simp_all

theorem IntegrationTimeFromMs_eq_sentinel_iff (ms : Int) :
    IntegrationTimeFromMs ms = 0xFF ↔ ms ∉ [25, 50, 100, 200, 400, 800] := by
  unfold IntegrationTimeFromMs IT_100MS IT_200MS IT_400MS IT_800MS IT_50MS IT_25MS
  split_ifs <;> simp_all

theorem PersistenceFromValue_eq_sentinel_iff (v : Int) :
    PersistenceFromValue v = 0xFF ↔ v ∉ [1, 2, 4, 8] := by
  unfold PersistenceFromValue PERS_1 PERS_2 PERS_4 PERS_8
  split_ifs <;> simp_all

/-- C4: the accepted gain strings "1", "2", "1/4", "1/8" round-trip through
`GainFromFactor` and `Factor` to the factors 1.0, 2.0, 0.25, 0.125; every other string is
mapped to the sentinel 0xFF, which is none of the four gain codes. -/
theorem gain_codec_roundtrip (f : String) :
    Factor (GainFromFactor "1") = 1.0
      ∧ Factor (GainFromFactor "2") = 2.0
      ∧ Factor (GainFromFactor "1/4") = 0.25
      ∧ Factor (GainFromFactor "1/8") = 0.125
      ∧ (f ∉ ["1", "2", "1/4", "1/8"] → GainFromFactor f = 0xFF)
      ∧ (0xFF : Gain) ∉ [GAIN_1, GAIN_2, GAIN_1_8, GAIN_1_4] := by
  have h1 : GainFromFactor "1" = 0 := by decide
  have h2 : GainFromFactor "2" = 1 := by decide
  have h3 : GainFromFactor "1/4" = 3 := by decide
  have h4 : GainFromFactor "1/8" = 2 := by decide
  rw [h1, h2, h3, h4]
  refine ⟨?_, ?_, ?_, ?_, (GainFromFactor_eq_sentinel_iff f).2, by decide⟩ <;>
    norm_num [Factor, GAIN_1, GAIN_2, GAIN_1_4, GAIN_1_8]

theorem gain_codec_roundtrip_witness :
    Factor (GainFromFactor "1/8") = 0.125 ∧ GainFromFactor "3" = 0xFF :=
  ⟨(gain_codec_roundtrip "3").2.2.2.1, (gain_codec_roundtrip "3").2.2.2.2.1 (by decide)⟩

/-- C5: every accepted integration time 25, 50, 100, 200, 400, 800 round-trips,
`TimeMs (IntegrationTimeFromMs ms) = ms`; every other integer is mapped to the sentinel
0xFF, which is none of the six integration codes. -/
theorem integration_codec_roundtrip (ms : Int) :
    (ms ∈ [25, 50, 100, 200, 400, 800] → TimeMs (IntegrationTimeFromMs ms) = ms)
      ∧ (ms ∉ [25, 50, 100, 200, 400, 800] → IntegrationTimeFromMs ms = 0xFF)
      ∧ (0xFF : IntegrationTime)
          ∉ [IT_100MS, IT_200MS, IT_400MS, IT_800MS, IT_50MS, IT_25MS] := by
  refine ⟨?_, (IntegrationTimeFromMs_eq_sentinel_iff ms).2, by decide⟩
  intro h
  simp only [List.mem_cons, List.mem_singleton, List.not_mem_nil, or_false] at h
  rcases h with rfl | rfl | rfl | rfl | rfl | rfl <;> decide

theorem integration_codec_roundtrip_witness :
    TimeMs (IntegrationTimeFromMs 25) = 25 ∧ IntegrationTimeFromMs 30 = 0xFF :=
  ⟨(integration_codec_roundtrip 25).1 (by decide),
   (integration_codec_roundtrip 30).2.1 (by decide)⟩

/-- C6: `PersistenceFromValue` maps 1, 2, 4, 8 to the distinct codes PERS_1 = 0,
PERS_2 = 1, PERS_4 = 2, PERS_8 = 3 and every other integer to the sentinel 0xFF; a value
is accepted (not mapped to 0xFF) exactly when it is one of 1, 2, 4, 8. -/
theorem persistence_codec (v : Int) :
    PersistenceFromValue 1 = PERS_1 ∧ PERS_1 = 0
      ∧ PersistenceFromValue 2 = PERS_2 ∧ PERS_2 = 1
      ∧ PersistenceFromValue 4 = PERS_4 ∧ PERS_4 = 2
      ∧ PersistenceFromValue 8 = PERS_8 ∧ PERS_8 = 3
      ∧ (v ∉ [1, 2, 4, 8] → PersistenceFromValue v = 0xFF)
      ∧ (PersistenceFromValue v ≠ 0xFF ↔ v ∈ [1, 2, 4, 8]) := by
  refine ⟨by decide, by decide, by decide, by decide, by decide, by decide, by decide,
    by decide, (PersistenceFromValue_eq_sentinel_iff v).2, ?_⟩
  rw [Ne, PersistenceFromValue_eq_sentinel_iff, not_not]

theorem persistence_codec_witness :
    PersistenceFromValue 3 = 0xFF ∧ PersistenceFromValue 8 = PERS_8 :=
  ⟨(persistence_codec 3).2.2.2.2.2.2.2.2.1 (by decide), (persistence_codec 3).2.2.2.2.2.2.1⟩

end LuxSensor

/-! ## Theorems: construction of the lux sensor -/

namespace LuxSensor

/-- On a bus where opening and writing succeed, `Initialize` succeeds after exactly
the events open, configuration write, power-save write, close. -/
theorem Initialize_of_bus_ok (s : luxSensor) (tr : List Event)
    (hopen : ∀ t a, s.bus.openHandle t a = none)
    (hwrite : ∀ t r d, s.bus.writeBlockData t r d = none) :
    Initialize s tr = (none, tr ++ [Event.openHandle s.addr] ++
      [Event.writeBlockData ALS_CONFIG
        [(packConfig true false s.persistence s.integration s.gain >>> 8) % 256,
          packConfig true false s.persistence s.integration s.gain % 256]] ++
      [Event.writeBlockData ALS_POWER_SAVE [0x00, 0x00]] ++ [Event.close]) := by
  simp only [Initialize, hopen, hwrite]

/-- Whatever the configuration and the bus, a sensor returned by `NewLuxSensor` holds
the settings GAIN_1_4, IT_100MS and PERS_1. -/
theorem NewLuxSensor_ok_settings (NewI2cBus : String → Except Err I2C) (conf : Config)
    (tr : List Event) (s : luxSensor)
    (h : (NewLuxSensor NewI2cBus conf tr).1 = Except.ok s) :
    s.gain = GAIN_1_4 ∧ s.integration = IT_100MS ∧ s.persistence = PERS_1 := by
  unfold NewLuxSensor at h
  simp only at h
  repeat' split at h
  all_goals first
    | (simp only [reduceCtorEq] at h; done)
    | (simp only [Except.ok.injEq] at h; subst h; exact ⟨rfl, rfl, rfl⟩)

/-- The outcome of `NewLuxSensor` on a bus that opens and accepts every write: an
`Invalid ... value` error with no bus event when a non-default setting is mapped to the
sentinel, and otherwise a sensor after exactly the four events of `Initialize`, whose
configuration write carries the word 0x1801. -/
theorem NewLuxSensor_of_bus_ok (NewI2cBus : String → Except Err I2C) (bus : I2C)
    (conf : Config) (tr : List Event)
    (hbus : NewI2cBus conf.I2CBus = Except.ok bus)
    (hopen : ∀ t a, bus.openHandle t a = none)
    (hwrite : ∀ t r d, bus.writeBlockData t r d = none) :
    (((conf.Gain ≠ "" ∧ GainFromFactor conf.Gain = 0xFF)
        ∨ (conf.IntegrationTime ≠ 0 ∧ IntegrationTimeFromMs conf.IntegrationTime = 0xFF)
        ∨ (conf.Persistence ≠ 0 ∧ PersistenceFromValue conf.Persistence = 0xFF)) →
      ∃ msg, NewLuxSensor NewI2cBus conf tr = (Except.error (Err.invalid msg), tr))
    ∧ (¬ ((conf.Gain ≠ "" ∧ GainFromFactor conf.Gain = 0xFF)
        ∨ (conf.IntegrationTime ≠ 0 ∧ IntegrationTimeFromMs conf.IntegrationTime = 0xFF)
        ∨ (conf.Persistence ≠ 0 ∧ PersistenceFromValue conf.Persistence = 0xFF)) →
      ∃ s, NewLuxSensor NewI2cBus conf tr = (Except.ok s,
        tr ++ [Event.openHandle s.addr, Event.writeBlockData ALS_CONFIG [0x18, 0x01],
          Event.writeBlockData ALS_POWER_SAVE [0x00, 0x00], Event.close])) := by
  have hw : packConfig true false PERS_1 IT_100MS GAIN_1_4 = 0x1801 := by decide
  unfold NewLuxSensor
  rw [hbus]
  simp only [Initialize, hopen, hwrite, hw]
  by_cases hg : conf.Gain = "" <;> by_cases hg2 : GainFromFactor conf.Gain = 0xFF <;>
    by_cases hi : conf.IntegrationTime = 0 <;>
    by_cases hi2 : IntegrationTimeFromMs conf.IntegrationTime = 0xFF <;>
    by_cases hp : conf.Persistence = 0 <;>
    by_cases hp2 : PersistenceFromValue conf.Persistence = 0xFF <;>
    simp [hg, hg2, hi, hi2, hp, hp2]

/-- C3 (evaluation at a configuration that asks for gain "2", 800 ms and persistence
8): on a bus where everything succeeds `NewLuxSensor` returns a sensor holding GAIN_1_4,
IT_100MS and PERS_1 and writes the configuration word 0x1801, although the codecs map
the configured values to GAIN_2, IT_800MS and PERS_8, whose word is 0x08F1. -/
theorem NewLuxSensor_configured_values_dropped :
    ((NewLuxSensor (steadyNewI2cBus []) ⟨"1", 0, "2", 800, 8⟩ []).1.toOption.map
        (fun s => (s.gain, s.integration, s.persistence))) = some (GAIN_1_4, IT_100MS, PERS_1)
      ∧ (GainFromFactor "2", IntegrationTimeFromMs 800, PersistenceFromValue 8)
          = (GAIN_2, IT_800MS, PERS_8)
      ∧ (NewLuxSensor (steadyNewI2cBus []) ⟨"1", 0, "2", 800, 8⟩ []).2
          = [Event.openHandle 0x10, Event.writeBlockData 0x00 [0x18, 0x01],
              Event.writeBlockData 0x03 [0x00, 0x00], Event.close]
      ∧ packConfig true false PERS_8 IT_800MS GAIN_2 = 0x08F1
      ∧ (GAIN_1_4, IT_100MS, PERS_1) ≠ (GAIN_2, IT_800MS, PERS_8) := by
  decide

/-- C7: when the I2C bus and its handle open and every device write succeeds,
`NewLuxSensor` returns an error exactly when the gain is a non-empty string outside
"1", "2", "1/4", "1/8", or the integration time a non-zero integer outside 25, 50, 100,
200, 400, 800, or the persistence a non-zero integer outside 1, 2, 4, 8; and when it
fails for that reason it issues no bus event at all. -/
theorem NewLuxSensor_error_iff_invalid_setting (NewI2cBus : String → Except Err I2C)
    (bus : I2C) (conf : Config) (tr : List Event)
    (hbus : NewI2cBus conf.I2CBus = Except.ok bus)
    (hopen : ∀ t a, bus.openHandle t a = none)
    (hwrite : ∀ t r d, bus.writeBlockData t r d = none) :
    ((∃ e, (NewLuxSensor NewI2cBus conf tr).1 = Except.error e) ↔
        ((conf.Gain ≠ "" ∧ conf.Gain ∉ ["1", "2", "1/4", "1/8"])
          ∨ (conf.IntegrationTime ≠ 0 ∧ conf.IntegrationTime ∉ [25, 50, 100, 200, 400, 800])
          ∨ (conf.Persistence ≠ 0 ∧ conf.Persistence ∉ [1, 2, 4, 8])))
      ∧ (((conf.Gain ≠ "" ∧ conf.Gain ∉ ["1", "2", "1/4", "1/8"])
          ∨ (conf.IntegrationTime ≠ 0 ∧ conf.IntegrationTime ∉ [25, 50, 100, 200, 400, 800])
          ∨ (conf.Persistence ≠ 0 ∧ conf.Persistence ∉ [1, 2, 4, 8])) →
        (NewLuxSensor NewI2cBus conf tr).2 = tr) := by
  rw [← GainFromFactor_eq_sentinel_iff, ← IntegrationTimeFromMs_eq_sentinel_iff,
    ← PersistenceFromValue_eq_sentinel_iff]
  obtain ⟨h1, h2⟩ := NewLuxSensor_of_bus_ok NewI2cBus bus conf tr hbus hopen hwrite
  by_cases hinv : (conf.Gain ≠ "" ∧ GainFromFactor conf.Gain = 0xFF)
      ∨ (conf.IntegrationTime ≠ 0 ∧ IntegrationTimeFromMs conf.IntegrationTime = 0xFF)
      ∨ (conf.Persistence ≠ 0 ∧ PersistenceFromValue conf.Persistence = 0xFF)
  · obtain ⟨msg, hm⟩ := h1 hinv
    rw [hm]
    exact ⟨⟨fun _ => hinv, fun _ => ⟨_, rfl⟩⟩, fun _ => rfl⟩
  · obtain ⟨s, hs⟩ := h2 hinv
    rw [hs]
    refine ⟨⟨?_, fun h => absurd h hinv⟩, fun h => absurd h hinv⟩
    rintro ⟨e, he⟩
    simp only [reduceCtorEq] at he

theorem NewLuxSensor_error_iff_invalid_setting_witness :
    (∃ e, (NewLuxSensor (steadyNewI2cBus []) ⟨"1", 0, "3", 0, 0⟩ []).1 = Except.error e)
      ∧ (NewLuxSensor (steadyNewI2cBus []) ⟨"1", 0, "3", 0, 0⟩ []).2 = [] :=
  ⟨(NewLuxSensor_error_iff_invalid_setting (steadyNewI2cBus []) (steadyBus [])
      ⟨"1", 0, "3", 0, 0⟩ [] rfl (fun _ _ => rfl) (fun _ _ _ => rfl)).1.2
      (Or.inl ⟨by decide, by decide⟩),
   (NewLuxSensor_error_iff_invalid_setting (steadyNewI2cBus []) (steadyBus [])
      ⟨"1", 0, "3", 0, 0⟩ [] rfl (fun _ _ => rfl) (fun _ _ _ => rfl)).2
      (Or.inl ⟨by decide, by decide⟩)⟩

end LuxSensor

/-! ## Theorems: lux computation -/

namespace LuxSensor

/-- C8: with `linear = 0.0042 * (800 / integrationMs) * (2.0 / gainFactor) * raw`, whenever
the gain is GAIN_1_4 or GAIN_1_8 (whatever `linear` is) or `linear > 1000`, `computeLux`
returns `6.0135e-13*linear^4 - 9.3924e-9*linear^3 + 8.1488e-5*linear^2 + 1.0023*linear`,
for every raw count and every integration code (the 16-bit counts and the six valid
codes included). -/
theorem computeLux_correction_branch (s : luxSensor) (raw : Nat) (linear : ℚ)
    (hlinear : linear
      = 0.0042 * (800 / (TimeMs s.integration : ℚ)) * (2.0 / Factor s.gain) * (raw : ℚ))
    (h : s.gain = GAIN_1_4 ∨ s.gain = GAIN_1_8 ∨ linear > 1000) :
    computeLux s raw
      = 6.0135e-13 * linear ^ 4 - 9.3924e-9 * linear ^ 3 + 8.1488e-5 * linear ^ 2
          + 1.0023 * linear := by
  have hl : getResolution s * (raw : ℚ) = linear := by
    rw [hlinear]
    simp only [getResolution, MAX_RES, IT_MAX, GAIN_MAX]
    norm_num
  unfold computeLux
  simp only [hl]
  rw [if_pos h]
  ring

theorem computeLux_correction_branch_witness :
    computeLux (sampleLuxSensor GAIN_1_8 IT_800MS PERS_1) 1
      = 6.0135e-13 * (0.0672 : ℚ) ^ 4 - 9.3924e-9 * (0.0672 : ℚ) ^ 3
          + 8.1488e-5 * (0.0672 : ℚ) ^ 2 + 1.0023 * (0.0672 : ℚ)
      ∧ (0.0672 : ℚ) < 1000 :=
  ⟨computeLux_correction_branch (sampleLuxSensor GAIN_1_8 IT_800MS PERS_1) 1 0.0672
      (by norm_num [sampleLuxSensor, TimeMs, Factor, GAIN_1, GAIN_2, GAIN_1_4, GAIN_1_8,
        IT_100MS, IT_200MS, IT_400MS, IT_800MS])
      (Or.inr (Or.inl rfl)),
    by norm_num⟩

/-- C9: with `linear = 0.0042 * (800 / integrationMs) * (2.0 / gainFactor) * raw`, when the
gain is GAIN_1 or GAIN_2 and `linear` is at most 1000, `computeLux` returns `linear`
unmodified, for every raw count and integration code; at GAIN_1, IT_100MS and raw 1 the
result is `0.0042 * 8 * 2 = 0.0672`. -/
theorem computeLux_linear_branch (s : luxSensor) (raw : Nat) (linear : ℚ)
    (hlinear : linear
      = 0.0042 * (800 / (TimeMs s.integration : ℚ)) * (2.0 / Factor s.gain) * (raw : ℚ))
    (hgain : s.gain = GAIN_1 ∨ s.gain = GAIN_2) (hle : linear ≤ 1000) :
    computeLux s raw = linear
      ∧ computeLux (sampleLuxSensor GAIN_1 IT_100MS PERS_1) 1 = 0.0672
      ∧ (0.0042 * 8 * 2 : ℚ) = 0.0672 := by
  have key : ∀ (t : luxSensor) (n : Nat), (t.gain = GAIN_1 ∨ t.gain = GAIN_2) →
      getResolution t * (n : ℚ) ≤ 1000 → computeLux t n = getResolution t * (n : ℚ) := by
    intro t n hg hl
    have h14 : t.gain ≠ GAIN_1_4 := by
      rcases hg with hg | hg <;> rw [hg] <;> decide
    have h18 : t.gain ≠ GAIN_1_8 := by
      rcases hg with hg | hg <;> rw [hg] <;> decide
    unfold computeLux
    simp only [h14, h18, false_or, gt_iff_lt, not_lt.mpr hl, if_false]
  have hl : getResolution s * (raw : ℚ) = linear := by
    rw [hlinear]
    simp only [getResolution, MAX_RES, IT_MAX, GAIN_MAX]
    norm_num
  refine ⟨?_, ?_, by norm_num⟩
  · rw [key s raw hgain (by rw [hl]; exact hle), hl]
  · have hr : getResolution (sampleLuxSensor GAIN_1 IT_100MS PERS_1) * ((1 : Nat) : ℚ)
        = 0.0672 := by
      norm_num [getResolution, sampleLuxSensor, MAX_RES, IT_MAX, GAIN_MAX, TimeMs, Factor,
        GAIN_1, IT_100MS]
    rw [key _ 1 (Or.inl rfl) (by rw [hr]; norm_num), hr]

theorem computeLux_linear_branch_witness :
    computeLux (sampleLuxSensor GAIN_2 IT_800MS PERS_1) 1000 = 4.2 :=
  (computeLux_linear_branch (sampleLuxSensor GAIN_2 IT_800MS PERS_1) 1000 4.2
      (by norm_num [sampleLuxSensor, TimeMs, Factor, GAIN_1, GAIN_2, GAIN_1_4, GAIN_1_8,
        IT_100MS, IT_200MS, IT_400MS, IT_800MS])
      (Or.inr rfl) (by norm_num)).1

end LuxSensor

/-! ## Theorems: soil temperature -/

namespace SoilSensor

/-- Four bytes assembled by shifts and ORs are the big-endian number they spell. -/
theorem temperatureRaw_eq (d0 d1 d2 d3 : Nat) (h0 : d0 < 256) (h1 : d1 < 256)
    (h2 : d2 < 256) (h3 : d3 < 256) :
    temperatureRaw d0 d1 d2 d3 = d0 * 2 ^ 24 + d1 * 2 ^ 16 + d2 * 2 ^ 8 + d3 := by
  unfold temperatureRaw
  simp only [Nat.shiftLeft_eq]
  rw [Nat.mod_eq_of_lt (by omega : d0 * 2 ^ 24 < 2 ^ 32),
    Nat.mod_eq_of_lt (by omega : d1 * 2 ^ 16 < 2 ^ 32),
    Nat.mod_eq_of_lt (by omega : d2 * 2 ^ 8 < 2 ^ 32)]
  have e1 : d0 * 2 ^ 24 ||| d1 * 2 ^ 16 = d0 * 2 ^ 24 + d1 * 2 ^ 16 := by
    have := Nat.mul_add_lt_is_or (by omega : d1 * 2 ^ 16 < 2 ^ 24) d0
    rw [Nat.mul_comm (2 ^ 24) d0] at this
    exact this.symm
  have e2 : (d0 * 2 ^ 24 + d1 * 2 ^ 16) ||| d2 * 2 ^ 8
      = d0 * 2 ^ 24 + d1 * 2 ^ 16 + d2 * 2 ^ 8 := by
    have := Nat.mul_add_lt_is_or (by omega : d2 * 2 ^ 8 < 2 ^ 16) (d0 * 2 ^ 8 + d1)
    have e : 2 ^ 16 * (d0 * 2 ^ 8 + d1) = d0 * 2 ^ 24 + d1 * 2 ^ 16 := by ring
    rw [e] at this
    exact this.symm
  have e3 : (d0 * 2 ^ 24 + d1 * 2 ^ 16 + d2 * 2 ^ 8) ||| d3
      = d0 * 2 ^ 24 + d1 * 2 ^ 16 + d2 * 2 ^ 8 + d3 := by
    have := Nat.mul_add_lt_is_or (by omega : d3 < 2 ^ 8) (d0 * 2 ^ 16 + d1 * 2 ^ 8 + d2)
    have e : 2 ^ 8 * (d0 * 2 ^ 16 + d1 * 2 ^ 8 + d2)
        = d0 * 2 ^ 24 + d1 * 2 ^ 16 + d2 * 2 ^ 8 := by ring
    rw [e] at this
    exact this.symm
  rw [e1, e2, e3]

/-- A value that fits the 24-bit significand is converted exactly. -/
theorem float32OfUint32_exact (x : Nat) (h : x < 2 ^ 24) : float32OfUint32 x = x := by
  unfold float32OfUint32
  rw [if_pos h]

/-- The conversion moves a value by at most 128, half of the coarsest spacing `2 ^ 8`. -/
theorem float32OfUint32_near (x : Nat) :
    float32OfUint32 x ≤ x + 128 ∧ x ≤ float32OfUint32 x + 128 := by
  by_cases h24 : x < 2 ^ 24
  · rw [float32OfUint32_exact x h24]; omega
  by_cases h25 : x < 2 ^ 25
  · simp only [float32OfUint32, h24, h25, if_true, if_false]; split_ifs <;> omega
  by_cases h26 : x < 2 ^ 26
  · simp only [float32OfUint32, h24, h25, h26, if_true, if_false]; split_ifs <;> omega
  by_cases h27 : x < 2 ^ 27
  · simp only [float32OfUint32, h24, h25, h26, h27, if_true, if_false]; split_ifs <;> omega
  by_cases h28 : x < 2 ^ 28
  · simp only [float32OfUint32, h24, h25, h26, h27, h28, if_true, if_false]
    split_ifs <;> omega
  by_cases h29 : x < 2 ^ 29
  · simp only [float32OfUint32, h24, h25, h26, h27, h28, h29, if_true, if_false]
    split_ifs <;> omega
  by_cases h30 : x < 2 ^ 30
  · simp only [float32OfUint32, h24, h25, h26, h27, h28, h29, h30, if_true, if_false]
    split_ifs <;> omega
  by_cases h31 : x < 2 ^ 31
  · simp only [float32OfUint32, h24, h25, h26, h27, h28, h29, h30, h31, if_true, if_false]
    split_ifs <;> omega
  · simp only [float32OfUint32, h24, h25, h26, h27, h28, h29, h30, h31, if_false]
    split_ifs <;> omega

/-- On a bus where the handle opens, the command write succeeds and the read answers
at least four bytes, `GetTemperature` returns the converted register scaled by
`2 ^ (-16)`, after the events open, write, sleep, read, close. -/
theorem GetTemperature_of_bus_ok (s : stemmaSoilSensorStemmaSoilSensor) (tr : List Event)
    (d0 d1 d2 d3 : Nat) (rest : List Nat)
    (hopen : s.bus.openHandle tr s.addr = none)
    (hwrite : s.bus.write (tr ++ [Event.openHandle s.addr]) [0x00, 0x04] = none)
    (hread : s.bus.readBlockData
        (tr ++ [Event.openHandle s.addr] ++ [Event.write [0x00, 0x04]] ++ [Event.sleep 5]) 0x00 4
      = Except.ok (d0 :: d1 :: d2 :: d3 :: rest)) :
    GetTemperature s tr
      = (Except.ok ((float32OfUint32 (temperatureRaw d0 d1 d2 d3) : ℚ) / 65536),
          tr ++ [Event.openHandle s.addr] ++ [Event.write [0x00, 0x04]] ++ [Event.sleep 5]
            ++ [Event.readBlockData 0x00 4] ++ [Event.close]) := by
  have h16 : (1 <<< 16 : Nat) = 65536 := by decide
  simp only [GetTemperature, hopen, hwrite, hread, h16]
  norm_num
  ring

/-- C10 (counterexample): for the payload 0x01 0x00 0x00 0x01 the register value is
16777217, `GetTemperature` returns 256, and 256 is not 16777217 / 65536. -/
theorem GetTemperature_not_exact_quotient :
    (GetTemperature (sampleSoilSensor [0x01, 0x00, 0x00, 0x01]) []).1 = Except.ok 256
      ∧ (256 : ℚ) ≠ ((0x01 * 2 ^ 24 + 0x00 * 2 ^ 16 + 0x00 * 2 ^ 8 + 0x01 : Nat) : ℚ) / 65536 := by
  constructor
  · rw [GetTemperature_of_bus_ok (sampleSoilSensor [0x01, 0x00, 0x00, 0x01]) [] 1 0 0 1 []
      rfl rfl rfl]
    have h : float32OfUint32 (temperatureRaw 1 0 0 1) = 16777216 := by decide
    rw [h]
    norm_num
  · norm_num

/-- C10 (as amended): for every 4-byte payload b0 b1 b2 b3 returned by the bus, with
`v = b0*2^24 + b1*2^16 + b2*2^8 + b3`, `GetTemperature` returns `float32(v) / 65536`, where
`float32(v)` is `v` rounded to a 24-bit significand (nearest, ties to even); the result
is within 1/512 of `v / 65536`, and it is exactly `v / 65536` when b0 = 0 (`v < 2^24`); the
payload 0x00 0x01 0x00 0x00 yields 1.0. -/
theorem GetTemperature_decode (s : stemmaSoilSensorStemmaSoilSensor) (tr : List Event)
    (b0 b1 b2 b3 : Nat) (h0 : b0 < 256) (h1 : b1 < 256) (h2 : b2 < 256) (h3 : b3 < 256)
    (hopen : s.bus.openHandle tr s.addr = none)
    (hwrite : s.bus.write (tr ++ [Event.openHandle s.addr]) [0x00, 0x04] = none)
    (hread : s.bus.readBlockData
        (tr ++ [Event.openHandle s.addr] ++ [Event.write [0x00, 0x04]] ++ [Event.sleep 5]) 0x00 4
      = Except.ok [b0, b1, b2, b3]) :
    (GetTemperature s tr).1
        = Except.ok ((float32OfUint32 (b0 * 2 ^ 24 + b1 * 2 ^ 16 + b2 * 2 ^ 8 + b3) : ℚ) / 65536)
      ∧ |(float32OfUint32 (b0 * 2 ^ 24 + b1 * 2 ^ 16 + b2 * 2 ^ 8 + b3) : ℚ) / 65536
            - ((b0 * 2 ^ 24 + b1 * 2 ^ 16 + b2 * 2 ^ 8 + b3 : Nat) : ℚ) / 65536| ≤ 1 / 512
      ∧ (b0 = 0 → (GetTemperature s tr).1
          = Except.ok (((b0 * 2 ^ 24 + b1 * 2 ^ 16 + b2 * 2 ^ 8 + b3 : Nat) : ℚ) / 65536))
      ∧ (GetTemperature (sampleSoilSensor [0x00, 0x01, 0x00, 0x00]) []).1 = Except.ok 1.0 := by
  have hv := temperatureRaw_eq b0 b1 b2 b3 h0 h1 h2 h3
  have hres := GetTemperature_of_bus_ok s tr b0 b1 b2 b3 [] hopen hwrite hread
  rw [hv] at hres
  refine ⟨by rw [hres], ?_, ?_, ?_⟩
  · obtain ⟨hle, hge⟩ := float32OfUint32_near (b0 * 2 ^ 24 + b1 * 2 ^ 16 + b2 * 2 ^ 8 + b3)
    have hle' : (float32OfUint32 (b0 * 2 ^ 24 + b1 * 2 ^ 16 + b2 * 2 ^ 8 + b3) : ℚ)
        ≤ ((b0 * 2 ^ 24 + b1 * 2 ^ 16 + b2 * 2 ^ 8 + b3 : Nat) : ℚ) + 128 := by
      exact_mod_cast hle
    have hge' : ((b0 * 2 ^ 24 + b1 * 2 ^ 16 + b2 * 2 ^ 8 + b3 : Nat) : ℚ)
        ≤ (float32OfUint32 (b0 * 2 ^ 24 + b1 * 2 ^ 16 + b2 * 2 ^ 8 + b3) : ℚ) + 128 := by
      exact_mod_cast hge
    have key : ∀ F V : ℚ, F ≤ V + 128 → V ≤ F + 128 →
        |F / 65536 - V / 65536| ≤ 1 / 512 := by
      intro F V hF hV
      rw [abs_le]
      constructor <;> linarith
    exact key _ _ hle' hge'
  · intro hb0
    rw [hres, float32OfUint32_exact _ (by omega)]
  · rw [GetTemperature_of_bus_ok (sampleSoilSensor [0x00, 0x01, 0x00, 0x00]) [] 0 1 0 0 []
      rfl rfl rfl]
    have h : float32OfUint32 (temperatureRaw 0 1 0 0) = 65536 := by decide
    rw [h]
    norm_num

theorem GetTemperature_decode_witness :
    (GetTemperature (sampleSoilSensor [0x00, 0x80, 0x40, 0x00]) []).1
      = Except.ok (((0 * 2 ^ 24 + 0x80 * 2 ^ 16 + 0x40 * 2 ^ 8 + 0 : Nat) : ℚ) / 65536) :=
  (GetTemperature_decode (sampleSoilSensor [0x00, 0x80, 0x40, 0x00]) [] 0 0x80 0x40 0
    (by decide) (by decide) (by decide) (by decide) rfl rfl rfl).2.2.1 rfl

end SoilSensor

/-! ## Theorems: two-byte payloads -/

/-- Two bytes assembled by a shift and an OR are the number they spell, high byte
first; the 16-bit and the 32-bit truncations of the shift do nothing. -/
theorem twoBytes_eq (hi lo : Nat) (hhi : hi < 256) (hlo : lo < 256) :
    ((hi <<< 8) % 2 ^ 16) ||| lo = hi * 256 + lo
      ∧ ((hi <<< 8) % 2 ^ 32) ||| lo = hi * 256 + lo := by
  have e : hi * 2 ^ 8 ||| lo = hi * 256 + lo := by
    have := Nat.mul_add_lt_is_or (by omega : lo < 2 ^ 8) hi
    rw [Nat.mul_comm (2 ^ 8) hi] at this
    rw [← this]
  simp only [Nat.shiftLeft_eq]
  rw [Nat.mod_eq_of_lt (by omega : hi * 2 ^ 8 < 2 ^ 16),
    Nat.mod_eq_of_lt (by omega : hi * 2 ^ 8 < 2 ^ 32)]
  exact ⟨e, e⟩

namespace SoilSensor

/-- On a bus where the handle opens, the command write succeeds and the read answers
at least two bytes, `GetMoisture` returns the assembled register after the events
open, write, sleep, read, close. -/
theorem GetMoisture_of_bus_ok (s : stemmaSoilSensorStemmaSoilSensor) (tr : List Event)
    (d0 d1 : Nat) (rest : List Nat)
    (hopen : s.bus.openHandle tr s.addr = none)
    (hwrite : s.bus.write (tr ++ [Event.openHandle s.addr]) [0x0F, 0x10] = none)
    (hread : s.bus.readBlockData
        (tr ++ [Event.openHandle s.addr] ++ [Event.write [0x0F, 0x10]] ++ [Event.sleep 5]) 0x0F 2
      = Except.ok (d0 :: d1 :: rest)) :
    GetMoisture s tr
      = (Except.ok (int32OfUint32 (((d0 <<< 8) % 2 ^ 32) ||| d1)),
          tr ++ [Event.openHandle s.addr] ++ [Event.write [0x0F, 0x10]] ++ [Event.sleep 5]
            ++ [Event.readBlockData 0x0F 2] ++ [Event.close]) := by
  simp only [GetMoisture, hopen, hwrite, hread]

/-- C11: for every 2-byte payload b0 b1 returned by the bus, `GetMoisture` returns the
signed 32-bit integer `b0*256 + b1` (big-endian), which lies in 0..65535; the payload
0x01 0x00 yields 256. -/
theorem GetMoisture_decode (s : stemmaSoilSensorStemmaSoilSensor) (tr : List Event)
    (b0 b1 : Nat) (h0 : b0 < 256) (h1 : b1 < 256)
    (hopen : s.bus.openHandle tr s.addr = none)
    (hwrite : s.bus.write (tr ++ [Event.openHandle s.addr]) [0x0F, 0x10] = none)
    (hread : s.bus.readBlockData
        (tr ++ [Event.openHandle s.addr] ++ [Event.write [0x0F, 0x10]] ++ [Event.sleep 5]) 0x0F 2
      = Except.ok [b0, b1]) :
    (GetMoisture s tr).1 = Except.ok ((b0 : Int) * 256 + (b1 : Int))
      ∧ (0 : Int) ≤ (b0 : Int) * 256 + (b1 : Int)
      ∧ (b0 : Int) * 256 + (b1 : Int) ≤ 65535
      ∧ (GetMoisture (sampleSoilSensor [0x01, 0x00]) []).1 = Except.ok 256 := by
  have key : ∀ c0 c1 : Nat, c0 < 256 → c1 < 256 →
      int32OfUint32 (((c0 <<< 8) % 2 ^ 32) ||| c1) = (c0 : Int) * 256 + (c1 : Int) := by
    intro c0 c1 hc0 hc1
    rw [(twoBytes_eq c0 c1 hc0 hc1).2]
    unfold int32OfUint32
    rw [Nat.mod_eq_of_lt (by omega : c0 * 256 + c1 < 2 ^ 32),
      if_pos (by omega : c0 * 256 + c1 < 2 ^ 31)]
    push_cast
    ring
  refine ⟨?_, by omega, by omega, ?_⟩
  · rw [GetMoisture_of_bus_ok s tr b0 b1 [] hopen hwrite hread, key b0 b1 h0 h1]
  · rw [GetMoisture_of_bus_ok (sampleSoilSensor [0x01, 0x00]) [] 1 0 [] rfl rfl rfl,
      key 1 0 (by decide) (by decide)]
    norm_num

/-- Witness of C11 at the payload 0xAB 0xCD on a steady bus. -/
theorem GetMoisture_decode_witness :
    (GetMoisture (sampleSoilSensor [0xAB, 0xCD]) []).1
      = Except.ok (((0xAB : Nat) : Int) * 256 + ((0xCD : Nat) : Int)) :=
  (GetMoisture_decode (sampleSoilSensor [0xAB, 0xCD]) [] 0xAB 0xCD (by decide) (by decide)
    rfl rfl rfl).1

end SoilSensor

namespace LuxSensor

/-- C12: for every 2-byte payload b0 b1 returned by the bus for the data register
0x04, `readALS` returns the 16-bit count `b1*256 + b0`, first byte least significant;
this is the opposite byte order from the configuration write, which sends the high
byte first: the bytes 0x18 0x01 that `Initialize` writes for the word 0x1801 would be
read back as 0x0118. -/
theorem readALS_little_endian (s : luxSensor) (tr : List Event) (b0 b1 : Nat)
    (h0 : b0 < 256) (h1 : b1 < 256)
    (hopen : s.bus.openHandle tr s.addr = none)
    (hread : s.bus.readBlockData (tr ++ [Event.openHandle s.addr]) 0x04 2
      = Except.ok [b0, b1]) :
    (readALS s tr).1 = Except.ok (b1 * 256 + b0)
      ∧ b1 * 256 + b0 < 2 ^ 16
      ∧ (Initialize (sampleLuxSensor GAIN_1_4 IT_100MS PERS_1) []).2
          = [Event.openHandle 0x10, Event.writeBlockData 0x00 [0x18, 0x01],
              Event.writeBlockData 0x03 [0x00, 0x00], Event.close]
      ∧ (readALS ⟨⟨"1", 0, "", 0, 0⟩, 0x10, steadyBus [0x18, 0x01], GAIN_1_4, IT_100MS,
            PERS_1⟩ []).1 = Except.ok 0x0118 := by
  refine ⟨?_, by omega, by decide, rfl⟩
  have hread' : s.bus.readBlockData (tr ++ [Event.openHandle s.addr]) ALS_DATA 2
      = Except.ok [b0, b1] := hread
  simp only [readALS, hopen, hread', (twoBytes_eq b1 b0 h1 h0).1]

/-- Witness of C12 at the payload 0x34 0x12 on a steady bus. -/
theorem readALS_little_endian_witness :
    (readALS ⟨⟨"1", 0, "", 0, 0⟩, 0x10, steadyBus [0x34, 0x12], GAIN_1_4, IT_100MS,
        PERS_1⟩ []).1 = Except.ok (0x12 * 256 + 0x34) :=
  (readALS_little_endian ⟨⟨"1", 0, "", 0, 0⟩, 0x10, steadyBus [0x34, 0x12], GAIN_1_4,
    IT_100MS, PERS_1⟩ [] 0x34 0x12 (by decide) (by decide) rfl rfl).1

end LuxSensor

/-! ## Theorems: initialization and readings of the lux sensor -/

namespace LuxSensor

/-- The configuration word fits 16 bits. -/
theorem packConfig_lt (enable interrupt : Bool) (persistence integration gain : Nat) :
    packConfig enable interrupt persistence integration gain < 2 ^ 16 := by
  have h := (packConfig_masked_reserved enable interrupt (persistence &&& 0x3)
    (integration &&& 0xF) (gain &&& 0x3)
    (Nat.and_lt_two_pow persistence (by decide : 3 < 2 ^ 2))
    (Nat.and_lt_two_pow integration (by decide : 15 < 2 ^ 4))
    (Nat.and_lt_two_pow gain (by decide : 3 < 2 ^ 2))).2
  unfold packConfig
  cases enable <;> cases interrupt <;> simpa using h

/-- The two bytes `Initialize` sends for a 16-bit word are `w >> 8` and `w & 0xFF`. -/
theorem configBytes_eq (w : Nat) (hw : w < 2 ^ 16) :
    [(w >>> 8) % 256, w % 256] = [w >>> 8, w &&& 0xFF]
      ∧ (w >>> 8) * 256 + (w &&& 0xFF) = w ∧ w >>> 8 < 256 ∧ w &&& 0xFF < 256 := by
  have h1 : w &&& 0xFF = w % 256 := Nat.and_pow_two_sub_one_eq_mod w 8
  have h2 : w >>> 8 = w / 256 := Nat.shiftRight_eq_div_pow w 8
  rw [h1, h2]
  have h3 : w / 256 < 256 := by omega
  refine ⟨by rw [Nat.mod_eq_of_lt h3], by omega, h3, by omega⟩

/-- C13: with `w = packConfig(true, false, persistence, integration, gain)` of the
driver's settings and the handle open, a successful `Initialize` issues exactly the
writes register 0x00 with bytes `[w >> 8, w & 0xFF]` (big-endian: the bytes give back
`w`) and then register 0x03 with bytes `[0x00, 0x00]`; if the first write fails it
returns an error wrapping the transport error without issuing the second write, and if
the second write fails it returns an error wrapping that transport error. -/
theorem Initialize_write_sequence (s : luxSensor) (tr : List Event) (w : Nat)
    (hw : w = packConfig true false s.persistence s.integration s.gain)
    (hopen : s.bus.openHandle tr s.addr = none) :
    (s.bus.writeBlockData (tr ++ [Event.openHandle s.addr]) 0x00 [w >>> 8, w &&& 0xFF] = none →
      s.bus.writeBlockData (tr ++ [Event.openHandle s.addr] ++
          [Event.writeBlockData 0x00 [w >>> 8, w &&& 0xFF]]) 0x03 [0x00, 0x00] = none →
      Initialize s tr = (none, tr ++ [Event.openHandle s.addr,
        Event.writeBlockData 0x00 [w >>> 8, w &&& 0xFF],
        Event.writeBlockData 0x03 [0x00, 0x00], Event.close]))
    ∧ (∀ err,
      s.bus.writeBlockData (tr ++ [Event.openHandle s.addr]) 0x00 [w >>> 8, w &&& 0xFF]
        = some err →
      Initialize s tr = (some (Err.wrap "failed to write config to VEML7700: %w" err),
        tr ++ [Event.openHandle s.addr, Event.writeBlockData 0x00 [w >>> 8, w &&& 0xFF],
          Event.close]))
    ∧ (∀ err,
      s.bus.writeBlockData (tr ++ [Event.openHandle s.addr]) 0x00 [w >>> 8, w &&& 0xFF] = none →
      s.bus.writeBlockData (tr ++ [Event.openHandle s.addr] ++
          [Event.writeBlockData 0x00 [w >>> 8, w &&& 0xFF]]) 0x03 [0x00, 0x00] = some err →
      Initialize s tr = (some (Err.wrap "failed to write power save to VEML7700: %w" err),
        tr ++ [Event.openHandle s.addr, Event.writeBlockData 0x00 [w >>> 8, w &&& 0xFF],
          Event.writeBlockData 0x03 [0x00, 0x00], Event.close]))
    ∧ (w >>> 8) * 256 + (w &&& 0xFF) = w ∧ w >>> 8 < 256 ∧ w &&& 0xFF < 256 := by
  have hlt : w < 2 ^ 16 := by rw [hw]; exact packConfig_lt _ _ _ _ _
  obtain ⟨hb, hsum, hhi, hlo⟩ := configBytes_eq w hlt
  refine ⟨?_, ?_, ?_, hsum, hhi, hlo⟩
  · intro h1 h2
    simp only [List.append_assoc, List.singleton_append, List.cons_append,
      List.nil_append] at h2
    simp only [Initialize, hopen, ← hw, hb, ALS_CONFIG, ALS_POWER_SAVE, h1, h2,
      List.append_assoc, List.singleton_append, List.cons_append, List.nil_append]
  · intro err h1
    simp only [Initialize, hopen, ← hw, hb, ALS_CONFIG, ALS_POWER_SAVE, h1,
      List.append_assoc, List.singleton_append, List.cons_append, List.nil_append]
  · intro err h1 h2
    simp only [List.append_assoc, List.singleton_append, List.cons_append,
      List.nil_append] at h2
    simp only [Initialize, hopen, ← hw, hb, ALS_CONFIG, ALS_POWER_SAVE, h1, h2,
      List.append_assoc, List.singleton_append, List.cons_append, List.nil_append]

/-- Witness of C13: on a bus rejecting writes to the power-save register, the sensor
with the default settings sends the word 0x1801 and then fails on the second write. -/
theorem Initialize_write_sequence_witness :
    Initialize ⟨⟨"1", 0, "", 0, 0⟩, 0x10, busFailingWriteAt 0x03 (Err.transport 5), GAIN_1_4,
        IT_100MS, PERS_1⟩ []
      = (some (Err.wrap "failed to write power save to VEML7700: %w" (Err.transport 5)),
          [] ++ [Event.openHandle 0x10, Event.writeBlockData 0x00 [0x1801 >>> 8, 0x1801 &&& 0xFF],
            Event.writeBlockData 0x03 [0x00, 0x00], Event.close]) :=
  (Initialize_write_sequence ⟨⟨"1", 0, "", 0, 0⟩, 0x10,
    busFailingWriteAt 0x03 (Err.transport 5), GAIN_1_4, IT_100MS, PERS_1⟩ [] 0x1801
    (by decide) rfl).2.2.1 (Err.transport 5) rfl rfl

end LuxSensor

namespace LuxSensor

/-- C14: for every bus behaviour, `Readings` of the lux sensor returns the error of
`readALS` and no reading map when `readALS` fails, in particular the bus error itself
when opening the handle fails and the wrapped bus error when the 2-byte data read
fails; otherwise it returns exactly the entries `als`, the raw count from `readALS`,
and `lux`, `computeLux` of that same count. -/
theorem Readings_composition (s : luxSensor) (tr : List Event) :
    (∀ err, (readALS s tr).1 = Except.error err →
        Readings s tr = (Except.error err, (readALS s tr).2))
    ∧ (∀ raw, (readALS s tr).1 = Except.ok raw →
        Readings s tr = (Except.ok [("als", Value.uint16 raw),
          ("lux", Value.float64 (computeLux s raw))], (readALS s tr).2))
    ∧ (∀ err, s.bus.openHandle tr s.addr = some err →
        Readings s tr = (Except.error err, tr ++ [Event.openHandle s.addr]))
    ∧ (∀ err, s.bus.openHandle tr s.addr = none →
        s.bus.readBlockData (tr ++ [Event.openHandle s.addr]) 0x04 2 = Except.error err →
        Readings s tr
          = (Except.error
              (Err.wrap "failed to read from stemma while reading ALS data: %w" err),
            tr ++ [Event.openHandle s.addr, Event.readBlockData 0x04 2, Event.close]))
    ∧ (∀ b0 b1, s.bus.openHandle tr s.addr = none →
        s.bus.readBlockData (tr ++ [Event.openHandle s.addr]) 0x04 2 = Except.ok [b0, b1] →
        (readALS s tr).1 = Except.ok (((b1 <<< 8) % 2 ^ 16) ||| b0)
          ∧ Readings s tr
            = (Except.ok [("als", Value.uint16 (((b1 <<< 8) % 2 ^ 16) ||| b0)),
                ("lux", Value.float64 (computeLux s (((b1 <<< 8) % 2 ^ 16) ||| b0)))],
              tr ++ [Event.openHandle s.addr, Event.readBlockData 0x04 2, Event.close])) := by
  refine ⟨?_, ?_, ?_, ?_, ?_⟩
  · intro err h
    simp only [Readings, h]
  · intro raw h
    simp only [Readings, h]
  · intro err h
    simp only [Readings, readALS, h]
  · intro err h1 h2
    have h2' : s.bus.readBlockData (tr ++ [Event.openHandle s.addr]) ALS_DATA 2
        = Except.error err := h2
    simp only [Readings, readALS, h1, h2, h2', ALS_DATA, List.append_assoc, List.singleton_append,
      List.cons_append, List.nil_append]
  · intro b0 b1 h1 h2
    have h2' : s.bus.readBlockData (tr ++ [Event.openHandle s.addr]) ALS_DATA 2
        = Except.ok [b0, b1] := h2
    simp only [Readings, readALS, h1, h2, h2', ALS_DATA, List.append_assoc, List.singleton_append,
      List.cons_append, List.nil_append, and_self]

/-- Witness of C14: on a bus whose handle cannot be opened, `Readings` returns the
bus error after the open attempt alone. -/
theorem Readings_composition_witness :
    Readings ⟨⟨"1", 0, "", 0, 0⟩, 0x10, busFailingOpen (Err.transport 7), GAIN_1_4, IT_100MS,
        PERS_1⟩ []
      = (Except.error (Err.transport 7), [] ++ [Event.openHandle 0x10]) :=
  (Readings_composition ⟨⟨"1", 0, "", 0, 0⟩, 0x10, busFailingOpen (Err.transport 7),
    GAIN_1_4, IT_100MS, PERS_1⟩ []).2.2.1 (Err.transport 7) rfl

end LuxSensor

/-! ## Theorems: bus handle scope -/

namespace LuxSensor

/-- The handle of `Initialize`: nothing after a failed open, otherwise one close, last. -/
theorem Initialize_handle_scoped (s : luxSensor) (tr : List Event) :
    (∀ err, s.bus.openHandle tr s.addr = some err →
        Initialize s tr
          = (some (Err.wrap "failed to open I2C handle at address 0x%X: %w" err),
              tr ++ [Event.openHandle s.addr]))
    ∧ (s.bus.openHandle tr s.addr = none →
        ∃ mid, (Initialize s tr).2 = tr ++ [Event.openHandle s.addr] ++ mid ++ [Event.close]
          ∧ Event.close ∉ mid ∧ (∀ a, Event.openHandle a ∉ mid) ∧ mid ≠ []) := by
  constructor
  · intro err h
    simp only [Initialize, h]
  · intro h
    simp only [Initialize, h]
    generalize [packConfig true false s.persistence s.integration s.gain >>> 8 % 256,
      packConfig true false s.persistence s.integration s.gain % 256] = data
    split
    · refine ⟨[Event.writeBlockData ALS_CONFIG data], rfl, ?_, ?_, ?_⟩ <;> simp
    · split <;>
        (refine ⟨[Event.writeBlockData ALS_CONFIG data,
            Event.writeBlockData ALS_POWER_SAVE [0x00, 0x00]], ?_, ?_, ?_, ?_⟩ <;> simp)

/-- The handle of `readALS`: nothing after a failed open, otherwise one close, last. -/
theorem readALS_handle_scoped (s : luxSensor) (tr : List Event) :
    (∀ err, s.bus.openHandle tr s.addr = some err →
        readALS s tr = (Except.error err, tr ++ [Event.openHandle s.addr]))
    ∧ (s.bus.openHandle tr s.addr = none →
        ∃ mid, (readALS s tr).2 = tr ++ [Event.openHandle s.addr] ++ mid ++ [Event.close]
          ∧ Event.close ∉ mid ∧ (∀ a, Event.openHandle a ∉ mid) ∧ mid ≠ []) := by
  constructor
  · intro err h
    simp only [readALS, h]
  · intro h
    simp only [readALS, h]
    split
    · refine ⟨[Event.readBlockData _ _], rfl, ?_, ?_, ?_⟩ <;> simp
    · split <;> (refine ⟨[Event.readBlockData _ _], rfl, ?_, ?_, ?_⟩ <;> simp)

end LuxSensor

namespace SoilSensor

/-- The handle of `GetTemperature`: nothing after a failed open, otherwise one close,
last. -/
theorem GetTemperature_handle_scoped (s : stemmaSoilSensorStemmaSoilSensor)
    (tr : List Event) :
    (∀ err, s.bus.openHandle tr s.addr = some err →
        GetTemperature s tr = (Except.error err, tr ++ [Event.openHandle s.addr]))
    ∧ (s.bus.openHandle tr s.addr = none →
        ∃ mid, (GetTemperature s tr).2
            = tr ++ [Event.openHandle s.addr] ++ mid ++ [Event.close]
          ∧ Event.close ∉ mid ∧ (∀ a, Event.openHandle a ∉ mid) ∧ mid ≠ []) := by
  constructor
  · intro err h
    simp only [GetTemperature, h]
  · intro h
    simp only [GetTemperature, h]
    split
    · refine ⟨[Event.write [0x00, 0x04]], rfl, ?_, ?_, ?_⟩ <;> simp
    · split
      · refine ⟨[Event.write [0x00, 0x04], Event.sleep 5, Event.readBlockData 0x00 4],
          ?_, ?_, ?_, ?_⟩ <;> simp
      · split <;>
          (refine ⟨[Event.write [0x00, 0x04], Event.sleep 5, Event.readBlockData 0x00 4],
            ?_, ?_, ?_, ?_⟩ <;> simp)

/-- The handle of `GetMoisture`: nothing after a failed open, otherwise one close,
last. -/
theorem GetMoisture_handle_scoped (s : stemmaSoilSensorStemmaSoilSensor)
    (tr : List Event) :
    (∀ err, s.bus.openHandle tr s.addr = some err →
        GetMoisture s tr = (Except.error err, tr ++ [Event.openHandle s.addr]))
    ∧ (s.bus.openHandle tr s.addr = none →
        ∃ mid, (GetMoisture s tr).2
            = tr ++ [Event.openHandle s.addr] ++ mid ++ [Event.close]
          ∧ Event.close ∉ mid ∧ (∀ a, Event.openHandle a ∉ mid) ∧ mid ≠ []) := by
  constructor
  · intro err h
    simp only [GetMoisture, h]
  · intro h
    simp only [GetMoisture, h]
    split
    · refine ⟨[Event.write [0x0F, 0x10]], rfl, ?_, ?_, ?_⟩ <;> simp
    · split
      · refine ⟨[Event.write [0x0F, 0x10], Event.sleep 5, Event.readBlockData 0x0F 2],
          ?_, ?_, ?_, ?_⟩ <;> simp
      · split <;>
          (refine ⟨[Event.write [0x0F, 0x10], Event.sleep 5, Event.readBlockData 0x0F 2],
            ?_, ?_, ?_, ?_⟩ <;> simp)

end SoilSensor

/-- C17: in each of `Initialize`, `readALS`, `GetTemperature` and `GetMoisture`, if
`OpenHandle` fails the operation returns an error and the only event is the open
attempt (no write, read or close); if `OpenHandle` succeeds the events of the operation
are the open, a non-empty run of writes, reads and sleeps holding no open and no close,
and then exactly one close, whatever the bus answers to the writes and reads. -/
theorem handle_scoped (l : LuxSensor.luxSensor) (g : SoilSensor.stemmaSoilSensorStemmaSoilSensor)
    (tr : List Event) :
    ((∀ err, l.bus.openHandle tr l.addr = some err →
        LuxSensor.Initialize l tr
          = (some (Err.wrap "failed to open I2C handle at address 0x%X: %w" err),
              tr ++ [Event.openHandle l.addr]))
      ∧ (l.bus.openHandle tr l.addr = none →
        ∃ mid, (LuxSensor.Initialize l tr).2
            = tr ++ [Event.openHandle l.addr] ++ mid ++ [Event.close]
          ∧ Event.close ∉ mid ∧ (∀ a, Event.openHandle a ∉ mid) ∧ mid ≠ []))
    ∧ ((∀ err, l.bus.openHandle tr l.addr = some err →
        LuxSensor.readALS l tr = (Except.error err, tr ++ [Event.openHandle l.addr]))
      ∧ (l.bus.openHandle tr l.addr = none →
        ∃ mid, (LuxSensor.readALS l tr).2
            = tr ++ [Event.openHandle l.addr] ++ mid ++ [Event.close]
          ∧ Event.close ∉ mid ∧ (∀ a, Event.openHandle a ∉ mid) ∧ mid ≠ []))
    ∧ ((∀ err, g.bus.openHandle tr g.addr = some err →
        SoilSensor.GetTemperature g tr = (Except.error err, tr ++ [Event.openHandle g.addr]))
      ∧ (g.bus.openHandle tr g.addr = none →
        ∃ mid, (SoilSensor.GetTemperature g tr).2
            = tr ++ [Event.openHandle g.addr] ++ mid ++ [Event.close]
          ∧ Event.close ∉ mid ∧ (∀ a, Event.openHandle a ∉ mid) ∧ mid ≠ []))
    ∧ ((∀ err, g.bus.openHandle tr g.addr = some err →
        SoilSensor.GetMoisture g tr = (Except.error err, tr ++ [Event.openHandle g.addr]))
      ∧ (g.bus.openHandle tr g.addr = none →
        ∃ mid, (SoilSensor.GetMoisture g tr).2
            = tr ++ [Event.openHandle g.addr] ++ mid ++ [Event.close]
          ∧ Event.close ∉ mid ∧ (∀ a, Event.openHandle a ∉ mid) ∧ mid ≠ [])) :=
  ⟨LuxSensor.Initialize_handle_scoped l tr, LuxSensor.readALS_handle_scoped l tr,
    SoilSensor.GetTemperature_handle_scoped g tr, SoilSensor.GetMoisture_handle_scoped g tr⟩

/-- Witness of C17: a failed open in `GetMoisture`, and a successful open in `readALS`
on a bus whose data read fails. -/
theorem handle_scoped_witness :
    SoilSensor.GetMoisture ⟨⟨"1", 0⟩, 0x36, busFailingOpen (Err.transport 3)⟩ []
        = (Except.error (Err.transport 3), [] ++ [Event.openHandle 0x36])
      ∧ ∃ mid, (LuxSensor.readALS ⟨⟨"1", 0, "", 0, 0⟩, 0x10,
            busFailingReadAt 0x04 (Err.transport 4) [], LuxSensor.GAIN_1_4,
            LuxSensor.IT_100MS, LuxSensor.PERS_1⟩ []).2
          = [] ++ [Event.openHandle 0x10] ++ mid ++ [Event.close]
        ∧ Event.close ∉ mid ∧ (∀ a, Event.openHandle a ∉ mid) ∧ mid ≠ [] :=
  ⟨(handle_scoped (sampleLuxSensor 0 0 0) ⟨⟨"1", 0⟩, 0x36, busFailingOpen (Err.transport 3)⟩
      []).2.2.2.1 (Err.transport 3) rfl,
   (handle_scoped ⟨⟨"1", 0, "", 0, 0⟩, 0x10, busFailingReadAt 0x04 (Err.transport 4) [],
      LuxSensor.GAIN_1_4, LuxSensor.IT_100MS, LuxSensor.PERS_1⟩ (sampleSoilSensor [])
      []).2.1.2 rfl⟩

/-! ## Theorems: soil readings -/

namespace SoilSensor

/-- C15: `Readings` of the soil sensor runs the temperature transaction first and the
moisture transaction second, from the trace the first one left. If the temperature
transaction fails (open, command write or result read) it returns that error with no
map, and its events are those of the temperature transaction alone; if temperature
succeeds and moisture fails it returns the moisture error with no map; when both
succeed it returns exactly the entries `temperature_c` and `moisture` with the two
decoded values. -/
theorem Readings_fail_fast (s : stemmaSoilSensorStemmaSoilSensor) (tr : List Event) :
    (∀ err, (GetTemperature s tr).1 = Except.error err →
        Readings s tr = (Except.error err, (GetTemperature s tr).2))
    ∧ (∀ t err, (GetTemperature s tr).1 = Except.ok t →
        (GetMoisture s (GetTemperature s tr).2).1 = Except.error err →
        Readings s tr = (Except.error err, (GetMoisture s (GetTemperature s tr).2).2))
    ∧ (∀ t m, (GetTemperature s tr).1 = Except.ok t →
        (GetMoisture s (GetTemperature s tr).2).1 = Except.ok m →
        Readings s tr
          = (Except.ok [("temperature_c", Value.float32 t), ("moisture", Value.int32 m)],
              (GetMoisture s (GetTemperature s tr).2).2))
    ∧ (∀ err, s.bus.openHandle tr s.addr = some err →
        Readings s tr = (Except.error err, tr ++ [Event.openHandle s.addr]))
    ∧ (∀ err, s.bus.openHandle tr s.addr = none →
        s.bus.write (tr ++ [Event.openHandle s.addr]) [0x00, 0x04] = some err →
        Readings s tr
          = (Except.error
              (Err.wrap "failed to write to stemma while reading temperature: %w" err),
            tr ++ [Event.openHandle s.addr] ++ [Event.write [0x00, 0x04]] ++ [Event.close]))
    ∧ (∀ err, s.bus.openHandle tr s.addr = none →
        s.bus.write (tr ++ [Event.openHandle s.addr]) [0x00, 0x04] = none →
        s.bus.readBlockData
            (tr ++ [Event.openHandle s.addr] ++ [Event.write [0x00, 0x04]] ++ [Event.sleep 5])
            0x00 4 = Except.error err →
        Readings s tr
          = (Except.error
              (Err.wrap "failed to read from stemma while reading temperature: %w" err),
            tr ++ [Event.openHandle s.addr] ++ [Event.write [0x00, 0x04]] ++ [Event.sleep 5]
              ++ [Event.readBlockData 0x00 4] ++ [Event.close])) := by
  refine ⟨?_, ?_, ?_, ?_, ?_, ?_⟩
  · intro err h
    simp only [Readings, h]
  · intro t err h1 h2
    simp only [Readings, h1, h2]
  · intro t m h1 h2
    simp only [Readings, h1, h2]
  · intro err h
    simp only [Readings, GetTemperature, h]
  · intro err h1 h2
    simp only [Readings, GetTemperature, h1, h2]
  · intro err h1 h2 h3
    simp only [Readings, GetTemperature, h1, h2, h3]

/-- Witness of C15: on a bus whose reads of the moisture register 0x0F fail while the
temperature register answers 0x00 0x01 0x00 0x00, `Readings` returns the moisture
error and no map, after both transactions. -/
theorem Readings_fail_fast_witness :
    Readings ⟨⟨"1", 0⟩, 0x36, busFailingReadAt 0x0F (Err.transport 9) [0x00, 0x01, 0x00, 0x00]⟩ []
      = (Except.error
          (Err.wrap "failed to read from stemma while reading temperature: %w"
            (Err.transport 9)),
        (GetMoisture
          ⟨⟨"1", 0⟩, 0x36, busFailingReadAt 0x0F (Err.transport 9) [0x00, 0x01, 0x00, 0x00]⟩
          (GetTemperature
            ⟨⟨"1", 0⟩, 0x36, busFailingReadAt 0x0F (Err.transport 9) [0x00, 0x01, 0x00, 0x00]⟩
            []).2).2) :=
  (Readings_fail_fast
    ⟨⟨"1", 0⟩, 0x36, busFailingReadAt 0x0F (Err.transport 9) [0x00, 0x01, 0x00, 0x00]⟩ []).2.1
    _ _ rfl rfl

end SoilSensor

/-! ## Theorems: defaults and validity of the settings -/

namespace LuxSensor

/-- A valid gain code has a strictly positive factor. -/
theorem Factor_pos (g : Gain) (hg : g ∈ [GAIN_1, GAIN_2, GAIN_1_8, GAIN_1_4]) :
    0 < Factor g := by
  simp only [List.mem_cons, List.mem_singleton, List.not_mem_nil, or_false] at hg
  rcases hg with rfl | rfl | rfl | rfl <;>
    norm_num [Factor, GAIN_1, GAIN_2, GAIN_1_4, GAIN_1_8]

/-- A valid integration code has a strictly positive duration. -/
theorem TimeMs_pos (it : IntegrationTime)
    (hi : it ∈ [IT_100MS, IT_200MS, IT_400MS, IT_800MS, IT_50MS, IT_25MS]) :
    0 < TimeMs it := by
  simp only [List.mem_cons, List.mem_singleton, List.not_mem_nil, or_false] at hi
  rcases hi with rfl | rfl | rfl | rfl | rfl | rfl <;> decide

/-- An unrecognized gain code has the factor -1. -/
theorem Factor_of_invalid (g : Gain) (hg : g ∉ [GAIN_1, GAIN_2, GAIN_1_8, GAIN_1_4]) :
    Factor g = -1 := by
  simp only [List.mem_cons, List.mem_singleton, List.not_mem_nil, or_false, not_or] at hg
  obtain ⟨h1, h2, h3, h4⟩ := hg
  simp only [Factor, h1, h2, h3, h4, if_false]

/-- An unrecognized integration code has the duration -1. -/
theorem TimeMs_of_invalid (it : IntegrationTime)
    (hi : it ∉ [IT_100MS, IT_200MS, IT_400MS, IT_800MS, IT_50MS, IT_25MS]) :
    TimeMs it = -1 := by
  simp only [List.mem_cons, List.mem_singleton, List.not_mem_nil, or_false, not_or] at hi
  obtain ⟨h1, h2, h3, h4, h5, h6⟩ := hi
  simp only [TimeMs, h1, h2, h3, h4, h5, h6, if_false]

/-- With a valid gain and a valid integration code the resolution is strictly
positive. -/
theorem getResolution_pos (s : luxSensor)
    (hg : s.gain ∈ [GAIN_1, GAIN_2, GAIN_1_8, GAIN_1_4])
    (hi : s.integration ∈ [IT_100MS, IT_200MS, IT_400MS, IT_800MS, IT_50MS, IT_25MS]) :
    0 < getResolution s := by
  have hF := Factor_pos s.gain hg
  have hT : (0 : ℚ) < (TimeMs s.integration : ℚ) := by exact_mod_cast TimeMs_pos s.integration hi
  unfold getResolution MAX_RES IT_MAX GAIN_MAX
  positivity

/-- C18: for every gain code outside GAIN_1, GAIN_2, GAIN_1_8, GAIN_1_4 (such as 0xFF)
`Factor` returns -1, and for every integration code outside the six valid ones `TimeMs`
returns -1; for every valid code the magnitude is strictly positive, so -1 is returned
exactly for the unrecognized codes. -/
theorem sentinel_magnitude (g : Gain) (it : IntegrationTime) :
    (g ∉ [GAIN_1, GAIN_2, GAIN_1_8, GAIN_1_4] → Factor g = -1)
      ∧ (it ∉ [IT_100MS, IT_200MS, IT_400MS, IT_800MS, IT_50MS, IT_25MS] → TimeMs it = -1)
      ∧ (g ∈ [GAIN_1, GAIN_2, GAIN_1_8, GAIN_1_4] → 0 < Factor g)
      ∧ (it ∈ [IT_100MS, IT_200MS, IT_400MS, IT_800MS, IT_50MS, IT_25MS] → 0 < TimeMs it)
      ∧ (Factor g = -1 ↔ g ∉ [GAIN_1, GAIN_2, GAIN_1_8, GAIN_1_4])
      ∧ (TimeMs it = -1 ↔ it ∉ [IT_100MS, IT_200MS, IT_400MS, IT_800MS, IT_50MS, IT_25MS])
      ∧ Factor 0xFF = -1 ∧ TimeMs 0xFF = -1 := by
  refine ⟨Factor_of_invalid g, TimeMs_of_invalid it, Factor_pos g, TimeMs_pos it,
    ⟨?_, Factor_of_invalid g⟩, ⟨?_, TimeMs_of_invalid it⟩,
    Factor_of_invalid 0xFF (by decide), TimeMs_of_invalid 0xFF (by decide)⟩
  · intro h hmem
    have := Factor_pos g hmem
    rw [h] at this
    norm_num at this
  · intro h hmem
    have := TimeMs_pos it hmem
    rw [h] at this
    norm_num at this

/-- Witness of C18 at the sentinel 0xFF and at the valid codes GAIN_1_8 and IT_25MS. -/
theorem sentinel_magnitude_witness :
    Factor 0xFF = -1 ∧ TimeMs 0xFF = -1 ∧ 0 < Factor GAIN_1_8 ∧ 0 < TimeMs IT_25MS :=
  ⟨(sentinel_magnitude 0xFF 0xFF).1 (by decide), (sentinel_magnitude 0xFF 0xFF).2.1 (by decide),
    (sentinel_magnitude GAIN_1_8 IT_25MS).2.2.1 (by decide),
    (sentinel_magnitude GAIN_1_8 IT_25MS).2.2.2.1 (by decide)⟩

/-- C19: every driver returned without error by `NewLuxSensor`, for any configuration
and any bus, holds a gain, an integration code and a persistence among the valid codes
and never the sentinel 0xFF; so `Factor` and `TimeMs` are neither -1 nor 0 in
`getResolution`, and the resolution is strictly positive. -/
theorem settings_valid_invariant (NewI2cBus : String → Except Err I2C) (conf : Config)
    (tr : List Event) (s : luxSensor)
    (h : (NewLuxSensor NewI2cBus conf tr).1 = Except.ok s) :
    s.gain ∈ [GAIN_1, GAIN_2, GAIN_1_8, GAIN_1_4]
      ∧ s.integration ∈ [IT_100MS, IT_200MS, IT_400MS, IT_800MS, IT_50MS, IT_25MS]
      ∧ s.persistence ∈ [PERS_1, PERS_2, PERS_4, PERS_8]
      ∧ s.gain ≠ 0xFF ∧ s.integration ≠ 0xFF ∧ s.persistence ≠ 0xFF
      ∧ Factor s.gain ≠ -1 ∧ Factor s.gain ≠ 0
      ∧ TimeMs s.integration ≠ -1 ∧ TimeMs s.integration ≠ 0
      ∧ 0 < getResolution s := by
  obtain ⟨hg, hi, hp⟩ := NewLuxSensor_ok_settings NewI2cBus conf tr s h
  have hgv : s.gain ∈ [GAIN_1, GAIN_2, GAIN_1_8, GAIN_1_4] := by rw [hg]; decide
  have hiv : s.integration ∈ [IT_100MS, IT_200MS, IT_400MS, IT_800MS, IT_50MS, IT_25MS] := by
    rw [hi]; decide
  have hF := Factor_pos s.gain hgv
  have hT := TimeMs_pos s.integration hiv
  refine ⟨hgv, hiv, by rw [hp]; decide, by rw [hg]; decide, by rw [hi]; decide,
    by rw [hp]; decide, ?_, ne_of_gt hF, ?_, ne_of_gt hT, getResolution_pos s hgv hiv⟩
  · intro h1
    rw [h1] at hF
    norm_num at hF
  · intro h1
    rw [h1] at hT
    norm_num at hT

/-- Witness of C19: the sensor built on a steady bus from a configuration asking for
gain "2". -/
theorem settings_valid_invariant_witness :
    0 < getResolution ⟨⟨"1", 0, "2", 0, 0⟩, 0x10, steadyBus [], GAIN_1_4, IT_100MS, PERS_1⟩ :=
  (settings_valid_invariant (steadyNewI2cBus []) ⟨"1", 0, "2", 0, 0⟩ []
    ⟨⟨"1", 0, "2", 0, 0⟩, 0x10, steadyBus [], GAIN_1_4, IT_100MS, PERS_1⟩
    rfl).2.2.2.2.2.2.2.2.2.2

end LuxSensor

/-- C16: for a lux-sensor configuration that leaves gain empty and integration_time,
persistence and i2c_addr 0, on a bus that opens and accepts the writes, `NewLuxSensor`
builds a driver with gain GAIN_1_4 (factor 1/4), integration IT_100MS (100 ms),
persistence PERS_1 and address 0x10, and the configuration word written at
initialization is 0x1801; for a soil-sensor configuration with i2c_addr 0,
`NewStemmaSoilSensor` uses address 0x36. -/
theorem documented_defaults (NewI2cBus : String → Except Err I2C) (bus : I2C)
    (conf : LuxSensor.Config) (tr : List Event)
    (hbus : NewI2cBus conf.I2CBus = Except.ok bus)
    (hopen : ∀ t a, bus.openHandle t a = none)
    (hwrite : ∀ t r d, bus.writeBlockData t r d = none)
    (hg : conf.Gain = "") (hi : conf.IntegrationTime = 0) (hp : conf.Persistence = 0)
    (ha : conf.I2cAddr = 0)
    (NewSoilBus : String → Except Err I2C) (soilBus : I2C) (soilConf : SoilSensor.Config)
    (hsoil : NewSoilBus soilConf.I2CBus = Except.ok soilBus) (hsa : soilConf.I2cAddr = 0) :
    (∃ s, LuxSensor.NewLuxSensor NewI2cBus conf tr
          = (Except.ok s, tr ++ [Event.openHandle 0x10,
              Event.writeBlockData 0x00 [0x18, 0x01],
              Event.writeBlockData 0x03 [0x00, 0x00], Event.close])
        ∧ s.gain = LuxSensor.GAIN_1_4 ∧ LuxSensor.Factor s.gain = 1 / 4
        ∧ s.integration = LuxSensor.IT_100MS ∧ LuxSensor.TimeMs s.integration = 100
        ∧ s.persistence = LuxSensor.PERS_1 ∧ s.addr = 0x10)
      ∧ (0x18 * 256 + 0x01 = 0x1801
        ∧ LuxSensor.packConfig true false LuxSensor.PERS_1 LuxSensor.IT_100MS
            LuxSensor.GAIN_1_4 = 0x1801)
      ∧ ∃ g, SoilSensor.NewStemmaSoilSensor NewSoilBus soilConf = Except.ok g
          ∧ g.addr = 0x36 := by
  refine ⟨⟨⟨conf, 0x10, bus, LuxSensor.GAIN_1_4, LuxSensor.IT_100MS, LuxSensor.PERS_1⟩,
    ?_, rfl, ?_, rfl, rfl, rfl, rfl⟩, ⟨by decide, by decide⟩,
    ⟨⟨soilConf, 0x36, soilBus⟩, ?_, rfl⟩⟩
  · have hw : LuxSensor.packConfig true false LuxSensor.PERS_1 LuxSensor.IT_100MS
        LuxSensor.GAIN_1_4 = 0x1801 := by decide
    have hb : byteOfInt LuxSensor.defaultI2CAddress = 0x10 := by decide
    simp [LuxSensor.NewLuxSensor, hbus, hg, hi, hp, ha, LuxSensor.Initialize, hopen, hwrite,
      hw, hb, LuxSensor.ALS_CONFIG, LuxSensor.ALS_POWER_SAVE]
  · norm_num [LuxSensor.Factor, LuxSensor.GAIN_1, LuxSensor.GAIN_2, LuxSensor.GAIN_1_4,
      LuxSensor.GAIN_1_8]
  · have hb : byteOfInt SoilSensor.defaultI2CAddress = 0x36 := by decide
    simp [SoilSensor.NewStemmaSoilSensor, hsoil, hsa, hb]

/-- Witness of C16 on steady buses. -/
theorem documented_defaults_witness :
    (∃ s, LuxSensor.NewLuxSensor (steadyNewI2cBus []) ⟨"1", 0, "", 0, 0⟩ []
          = (Except.ok s, [] ++ [Event.openHandle 0x10,
              Event.writeBlockData 0x00 [0x18, 0x01],
              Event.writeBlockData 0x03 [0x00, 0x00], Event.close])
        ∧ s.gain = LuxSensor.GAIN_1_4 ∧ LuxSensor.Factor s.gain = 1 / 4
        ∧ s.integration = LuxSensor.IT_100MS ∧ LuxSensor.TimeMs s.integration = 100
        ∧ s.persistence = LuxSensor.PERS_1 ∧ s.addr = 0x10)
      ∧ ∃ g, SoilSensor.NewStemmaSoilSensor (steadyNewI2cBus []) ⟨"1", 0⟩ = Except.ok g
          ∧ g.addr = 0x36 :=
  ⟨(documented_defaults (steadyNewI2cBus []) (steadyBus []) ⟨"1", 0, "", 0, 0⟩ [] rfl
      (fun _ _ => rfl) (fun _ _ _ => rfl) rfl rfl rfl rfl
      (steadyNewI2cBus []) (steadyBus []) ⟨"1", 0⟩ rfl rfl).1,
   (documented_defaults (steadyNewI2cBus []) (steadyBus []) ⟨"1", 0, "", 0, 0⟩ [] rfl
      (fun _ _ => rfl) (fun _ _ _ => rfl) rfl rfl rfl rfl
      (steadyNewI2cBus []) (steadyBus []) ⟨"1", 0⟩ rfl rfl).2.2⟩

/-! ## Theorems: monotonicity of the lux computation -/

namespace LuxSensor

/-- The correction polynomial is monotone on the non-negative rationals: the
difference quotient is a sum of one-variable quadratics with negative discriminant,
each weighted by a non-negative factor, plus the linear coefficient. -/
theorem correction_mono (x y : ℚ) (hx : 0 ≤ x) (hxy : x ≤ y) :
    6.0135e-13 * x ^ 4 + -9.3924e-9 * x ^ 3 + 8.1488e-5 * x ^ 2 + 1.0023 * x
      ≤ 6.0135e-13 * y ^ 4 + -9.3924e-9 * y ^ 3 + 8.1488e-5 * y ^ 2 + 1.0023 * y := by
  have hy : 0 ≤ y := le_trans hx hxy
  have q1 : ∀ t : ℚ, 0 ≤ t → 0 ≤ 6.0135e-13 * t ^ 2 - 9.3924e-9 * t + 7.1488e-5 := by
    intro t ht
    nlinarith [sq_nonneg (t - 8000)]
  have q2 : ∀ t : ℚ, 0 ≤ t → 0 ≤ 6.0135e-13 * t ^ 2 - 4.6962e-9 * t + 1e-5 := by
    intro t ht
    nlinarith [sq_nonneg (t - 4000)]
  have hQ : 0 ≤ x * (6.0135e-13 * x ^ 2 - 9.3924e-9 * x + 7.1488e-5)
      + y * (6.0135e-13 * y ^ 2 - 9.3924e-9 * y + 7.1488e-5)
      + x * (6.0135e-13 * y ^ 2 - 4.6962e-9 * y + 1e-5)
      + y * (6.0135e-13 * x ^ 2 - 4.6962e-9 * x + 1e-5) + 1.0023 := by
    have h1 := mul_nonneg hx (q1 x hx)
    have h2 := mul_nonneg hy (q1 y hy)
    have h3 := mul_nonneg hx (q2 y hy)
    have h4 := mul_nonneg hy (q2 x hx)
    have h5 : (0 : ℚ) ≤ 1.0023 := by norm_num
    linarith
  have hprod := mul_nonneg (sub_nonneg.2 hxy) hQ
  nlinarith [hprod]

/-- The correction polynomial is non-negative on the non-negative rationals, and at
1000 it is at least 1000. -/
theorem correction_nonneg (x : ℚ) (hx : 0 ≤ x) :
    0 ≤ 6.0135e-13 * x ^ 4 + -9.3924e-9 * x ^ 3 + 8.1488e-5 * x ^ 2 + 1.0023 * x
      ∧ (1000 : ℚ) ≤ 6.0135e-13 * (1000 : ℚ) ^ 4 + -9.3924e-9 * (1000 : ℚ) ^ 3
          + 8.1488e-5 * (1000 : ℚ) ^ 2 + 1.0023 * (1000 : ℚ) := by
  have h := correction_mono 0 x le_rfl hx
  constructor
  · norm_num at h ⊢
    linarith
  · norm_num

/-- The value chosen by `computeLux` is monotone and non-negative in the linear lux,
across the switch from the linear value to the correction polynomial. -/
theorem branch_mono (a b : Prop) [Decidable a] [Decidable b] (x y : ℚ) (hx : 0 ≤ x)
    (hxy : x ≤ y) :
    (if a ∨ b ∨ x > 1000 then
        6.0135e-13 * x ^ 4 + -9.3924e-9 * x ^ 3 + 8.1488e-5 * x ^ 2 + 1.0023 * x else x)
      ≤ (if a ∨ b ∨ y > 1000 then
        6.0135e-13 * y ^ 4 + -9.3924e-9 * y ^ 3 + 8.1488e-5 * y ^ 2 + 1.0023 * y else y)
    ∧ 0 ≤ (if a ∨ b ∨ x > 1000 then
        6.0135e-13 * x ^ 4 + -9.3924e-9 * x ^ 3 + 8.1488e-5 * x ^ 2 + 1.0023 * x else x) := by
  have hm := correction_mono x y hx hxy
  have hn := (correction_nonneg x hx).1
  have h1000 := (correction_nonneg x hx).2
  by_cases hab : a ∨ b
  · have hcx : a ∨ b ∨ x > 1000 := by tauto
    have hcy : a ∨ b ∨ y > 1000 := by tauto
    rw [if_pos hcx, if_pos hcy]
    exact ⟨hm, hn⟩
  · by_cases h1 : x > 1000
    · have hcx : a ∨ b ∨ x > 1000 := Or.inr (Or.inr h1)
      have hcy : a ∨ b ∨ y > 1000 := Or.inr (Or.inr (lt_of_lt_of_le h1 hxy))
      rw [if_pos hcx, if_pos hcy]
      exact ⟨hm, hn⟩
    · have hcx : ¬ (a ∨ b ∨ x > 1000) := by tauto
      rw [if_neg hcx]
      refine ⟨?_, hx⟩
      by_cases h2 : y > 1000
      · have hcy : a ∨ b ∨ y > 1000 := Or.inr (Or.inr h2)
        rw [if_pos hcy]
        have hstep := correction_mono 1000 y (by norm_num) (le_of_lt h2)
        have hx' : x ≤ 1000 := not_lt.mp h1
        linarith
      · have hcy : ¬ (a ∨ b ∨ y > 1000) := by tauto
        rw [if_neg hcy]
        exact hxy

/-- C20: for every valid gain and integration time and all raw counts r1 <= r2 (the
16-bit counts included), `computeLux(r1) <= computeLux(r2)` and `computeLux(r1) >= 0` in
exact arithmetic, across the point where gains 1 and 2 switch from the linear value to
the correction polynomial and over the whole range of the polynomial. -/
theorem computeLux_monotone (s : luxSensor) (r1 r2 : Nat)
    (hg : s.gain ∈ [GAIN_1, GAIN_2, GAIN_1_8, GAIN_1_4])
    (hi : s.integration ∈ [IT_100MS, IT_200MS, IT_400MS, IT_800MS, IT_50MS, IT_25MS])
    (h12 : r1 ≤ r2) :
    computeLux s r1 ≤ computeLux s r2 ∧ 0 ≤ computeLux s r1 := by
  have hres := getResolution_pos s hg hi
  have hr1 : (0 : ℚ) ≤ (r1 : ℚ) := Nat.cast_nonneg r1
  have hr : (r1 : ℚ) ≤ (r2 : ℚ) := by exact_mod_cast h12
  have hx : 0 ≤ getResolution s * (r1 : ℚ) := mul_nonneg (le_of_lt hres) hr1
  have hxy : getResolution s * (r1 : ℚ) ≤ getResolution s * (r2 : ℚ) :=
    mul_le_mul_of_nonneg_left hr (le_of_lt hres)
  exact branch_mono (s.gain = GAIN_1_4) (s.gain = GAIN_1_8) _ _ hx hxy

/-- Witness of C20 across the switch: at GAIN_1 and IT_100MS the count 14880 has linear
lux 999.936 and the count 14881 has linear lux 1000.0032. -/
theorem computeLux_monotone_witness :
    computeLux (sampleLuxSensor GAIN_1 IT_100MS PERS_1) 14880
        ≤ computeLux (sampleLuxSensor GAIN_1 IT_100MS PERS_1) 14881
      ∧ 0 ≤ computeLux (sampleLuxSensor GAIN_1 IT_100MS PERS_1) 14880 :=
  computeLux_monotone (sampleLuxSensor GAIN_1 IT_100MS PERS_1) 14880 14881 (by decide)
    (by decide) (by decide)

end LuxSensor

end Stemma
